import Mathlib

/-!
Verification development for the ELD trip-planner repository.

The repository's visible source is the React client `src/frontend/src/App.js`
(form handling, map rendering, result rendering).  The Hours-of-Service (HOS)
planning core itself is not present in the source slice; its behaviour is fixed
by the specification (sections 3, 4, 6, 7 of the design document), so the core
is modelled here from the spec's words, while the client-side definitions
(`handleSubmit`, `getMapCenter`, the marker-popup labels, the
`current_cycle_used` form field) are translated directly from `App.js`.

Numeric quantities (hours, miles) are modelled as rationals: the core performs
exact arithmetic on them in this model, which is the reading the spec's
"exactly 8.0 cumulative hours" / "exact sum" language demands.
-/

/-! ## Data model (spec section 3) -/

/-- Duty status of the driver, as in the spec's `DutyClock.current_status`. -/
inductive DutyStatus where
  | Driving
  | OnDutyNotDriving
  | SleeperBerth
  | OffDuty
deriving DecidableEq, Repr

/-- Kind of a stop decision emitted by the rule engine (spec `StopDecision.kind`). -/
inductive StopKind where
  | ThirtyMinuteBreak
  | DailyRest10h
  | CycleReset34h
  | Fuel
  | PickupHandling
  | DropoffHandling
deriving DecidableEq, Repr

/-- Modelled from the spec: the mutable simulation state `DutyClock` owned by the
HOS Rule Engine (spec section 3).  The repository slice does not contain the
engine, only its consumer. -/
structure DutyClock where
  drive_hours_today : ℚ
  on_duty_window_hours : ℚ
  cycle_hours_used : ℚ
  hours_since_break : ℚ
  current_time : ℚ
  current_status : DutyStatus
deriving DecidableEq, Repr

/-- Output stop record (spec section 3, `Stop`). -/
structure Stop where
  type : StopKind
  duration : ℚ
  location : Option String
  distance_from_start : ℚ
deriving DecidableEq, Repr

/-- One row of the generated ELD log (spec section 3, `EldLogEntry`).  `date` is
the day index of the simulated timestamp and `time` the hour-of-day offset. -/
structure EldLogEntry where
  date : ℤ
  time : ℚ
  status : DutyStatus
  location : String
  hours_driven : ℚ
  remarks : String
deriving DecidableEq, Repr

/-- A geographic coordinate pair, `[lat, lon]` in the response contract. -/
def Coord : Type := ℚ × ℚ

instance : DecidableEq Coord := instDecidableEqProd

/-- Segment purpose (spec `RouteSegment.purpose`). -/
inductive SegPurpose where
  | travel
  | pickup
  | dropoff
deriving DecidableEq, Repr

/-- Modelled from the spec: a `RouteSegment` produced by the Waypoint Sequencer
(spec sections 3 and 4.1).  `label` is the destination waypoint's display
string, used for the `location` fields of stops and log rows.  For `pickup` and
`dropoff` segments, `drive_duration_hours` holds the fixed on-duty handling
duration. -/
structure RouteSegment where
  wp_from : Coord
  wp_to : Coord
  distance_miles : ℚ
  drive_duration_hours : ℚ
  purpose : SegPurpose
  label : String
deriving DecidableEq

/-- Aggregate result of one planning request (spec section 3, `TripResult`). -/
structure TripResult where
  route_coordinates : List Coord
  total_distance : ℚ
  total_duration : ℚ
  stops : List Stop
  eld_logs : List EldLogEntry
deriving DecidableEq

/-- Error taxonomy of the core (spec section 7). -/
inductive PlanError where
  | validationError
  | invalidRoute
  | incompleteSimulation
deriving DecidableEq, Repr

/-- Per-leg answer of the routing collaborator (spec section 6). -/
structure LegInfo where
  distance_miles : ℚ
  duration_hours : ℚ
deriving DecidableEq

/-- The full input of one `planTrip` request: the three location strings, the
geocoder's answers for them, the router's answers for the two legs, and the
`current_cycle_used` hours (spec section 6). -/
structure PlanInputs where
  current_location : String
  pickup_location : String
  dropoff_location : String
  current_coord : Coord
  pickup_coord : Coord
  dropoff_coord : Coord
  leg1 : LegInfo
  leg2 : LegInfo
  current_cycle_used : ℚ
deriving DecidableEq

/-- Modelled from the spec: the explicit threshold configuration of the rule
engine (spec section 9: `max_drive_hours`, `max_window_hours`,
`max_cycle_hours`, `break_threshold_hours`, `cycle_reset_hours`, plus the
fixed stop durations and the fuel-stop interval of section 4.2). -/
structure HosConfig where
  max_drive_hours : ℚ
  max_window_hours : ℚ
  max_cycle_hours : ℚ
  break_threshold_hours : ℚ
  daily_rest_hours : ℚ
  cycle_reset_hours : ℚ
  break_duration_hours : ℚ
  fuel_interval_miles : ℚ
  fuel_stop_hours : ℚ
  handling_hours : ℚ
deriving DecidableEq

/-- The default (federal 70h/8d) configuration used by all claims. -/
def defaultConfig : HosConfig :=
  { max_drive_hours := 11
    max_window_hours := 14
    max_cycle_hours := 70
    break_threshold_hours := 8
    daily_rest_hours := 10
    cycle_reset_hours := 34
    break_duration_hours := 1/2
    fuel_interval_miles := 1000
    fuel_stop_hours := 1/2
    handling_hours := 1 }

/-! ## Client-side definitions, translated from `src/frontend/src/App.js` -/

/-- The route object of a rendered response, as the client reads it:
`results.route.coordinates` may be absent (`none`) or an array. -/
structure ClientRoute where
  coordinates : Option (List Coord)
deriving DecidableEq

/-- The response object held in the client's `results` state, restricted to the
fields `getMapCenter` reads. -/
structure ClientResults where
  route : Option ClientRoute
deriving DecidableEq

/-- The fixed fallback map center `[39.8283, -98.5795]` of `App.js` line 56. -/
def usaCenter : Coord := (398283/10000, -985795/10000)

/-- `getMapCenter` from `App.js` lines 51-57.  In JavaScript an empty array is
truthy, so a present-but-empty `coordinates` passes the guard and the unguarded
`coords[0]` evaluates to `undefined`; that case is modelled as `none`, while
every guarded fallback returns `some usaCenter`. -/
def getMapCenter (results : Option ClientResults) : Option Coord :=
  match results with
  | none => some usaCenter
  | some r =>
    match r.route with
    | none => some usaCenter
    | some rt =>
      match rt.coordinates with
      | none => some usaCenter
      | some coords => coords.head?

/-- The marker popup label of `App.js` lines 147-148:
`idx === 0 ? 'Current Location' : idx === 1 ? 'Pickup' : 'Dropoff'`. -/
def markerLabel (idx : ℕ) : String :=
  if idx = 0 then "Current Location"
  else if idx = 1 then "Pickup"
  else "Dropoff"

/-- The popup labels produced for a rendered coordinate list (`App.js`
lines 144-151, one marker per coordinate, keyed by index). -/
def markerLabels (coords : List Coord) : List String :=
  (List.range coords.length).map markerLabel

/-- The client component state relevant to `handleSubmit`: the `results`,
`error` and `loading` `useState` hooks of `App.js` lines 24-26. -/
structure AppState where
  results : Option TripResult
  error : String
  loading : Bool
deriving DecidableEq

/-- The synchronous prefix of `handleSubmit` (`App.js` lines 37-39): set
`loading`, clear the error, clear any previous results before the request. -/
def requestStart (s : AppState) : AppState :=
  { s with loading := true, error := "", results := none }

/-- The fallback error text of `App.js` line 45. -/
def fallbackErrorText : String :=
  "Failed to calculate route. Please check your inputs."

/-- `err.response?.data?.error || 'Failed to calculate route. ...'` from
`App.js` line 45: an absent or empty (falsy) server-supplied message falls back
to the fixed text. -/
def errorMessage (serverMsg : Option String) : String :=
  match serverMsg with
  | some m => if m = "" then fallbackErrorText else m
  | none => fallbackErrorText

/-- `handleSubmit` from `App.js` lines 35-49, as a state transformer: the
request either resolves with response data or rejects with an optional
server-supplied error message; `finally` clears `loading` in both branches. -/
def handleSubmit (s : AppState) (resp : Except (Option String) TripResult) : AppState :=
  let s0 := requestStart s
  match resp with
  | Except.ok data => { s0 with results := some data, loading := false }
  | Except.error e => { s0 with error := errorMessage e, loading := false }

/-- The `current_cycle_used` number input of `App.js` lines 109-119, with its
declared HTML constraint attributes. -/
structure NumberFieldProps where
  name : String
  min : ℚ
  max : ℚ
  step : ℚ
  required : Bool
deriving DecidableEq

/-- The concrete attributes of the `current_cycle_used` field
(`min="0" max="70" step="0.5" required`). -/
def currentCycleUsedField : NumberFieldProps :=
  { name := "current_cycle_used", min := 0, max := 70, step := 1/2, required := true }

/-! ## HOS Rule Engine, Stop Inserter and assembler, modelled from the spec

The engine itself is code of this repository that is not under `src/` (only its
consumer is), so per the spec it is modelled here: sections 4.1-4.5 fix the
simulation state, the per-slice limit checks with their priority order, the
merging of coincident stops, and the assembled response shape. -/

/-- Modelled from the spec: the full simulation state threaded through one run.
`stops_rev`, `logs_rev` and `trace_rev` hold the emitted stop decisions, log
rows, and the duty-clock snapshot after every simulated event, newest first.
`on_duty_accum` instruments the total on-duty (driving plus handling) hours
accumulated so far; it is never reset and exists so that cycle accounting can
be stated. -/
structure SimState where
  clock : DutyClock
  distance : ℚ
  dist_since_fuel : ℚ
  stops_rev : List Stop
  logs_rev : List EldLogEntry
  trace_rev : List DutyClock
  on_duty_accum : ℚ
deriving DecidableEq, Repr

/-- The duty clock at trip start: fresh daily counters, the input
`current_cycle_used` carried in, off duty at simulated time zero. -/
def initClock (c0 : ℚ) : DutyClock :=
  { drive_hours_today := 0
    on_duty_window_hours := 0
    cycle_hours_used := c0
    hours_since_break := 0
    current_time := 0
    current_status := DutyStatus.OffDuty }

/-- The simulation state at trip start. -/
def initState (c0 : ℚ) : SimState :=
  { clock := initClock c0
    distance := 0
    dist_since_fuel := 0
    stops_rev := []
    logs_rev := []
    trace_rev := [initClock c0]
    on_duty_accum := 0 }

/-- Build one ELD log row; `date`/`time` derive from the simulated timestamp at
the start of the status segment (spec section 4.4). -/
def mkLogEntry (t : ℚ) (st : DutyStatus) (loc : String) (hrs : ℚ) (remarks : String) :
    EldLogEntry :=
  { date := ⌊t / 24⌋
    time := t - 24 * ⌊t / 24⌋
    status := st
    location := loc
    hours_driven := hrs
    remarks := remarks }

/-- Consume `d` hours of driving at speed `v` (spec section 4.2 step 4): all
four counters and the clock advance by `d`, the position by `v * d`, and a
`Driving` log row of `d` driven hours is appended. -/
def advanceDriving (s : SimState) (v d : ℚ) (loc : String) : SimState :=
  let c := s.clock
  let c' : DutyClock :=
    { drive_hours_today := c.drive_hours_today + d
      on_duty_window_hours := c.on_duty_window_hours + d
      cycle_hours_used := c.cycle_hours_used + d
      hours_since_break := c.hours_since_break + d
      current_time := c.current_time + d
      current_status := DutyStatus.Driving }
  { clock := c'
    distance := s.distance + v * d
    dist_since_fuel := s.dist_since_fuel + v * d
    stops_rev := s.stops_rev
    logs_rev := mkLogEntry c.current_time DutyStatus.Driving loc d "Driving" :: s.logs_rev
    trace_rev := c' :: s.trace_rev
    on_duty_accum := s.on_duty_accum + d }

/-- Spec section 4.2 step 1: emit `ThirtyMinuteBreak` at the current position,
reset `hours_since_break`, advance the clock by the break duration, status
`OnDutyNotDriving`; the break counts toward no driving cap. -/
def takeBreak (cfg : HosConfig) (s : SimState) : SimState :=
  let c := s.clock
  let c' : DutyClock :=
    { c with hours_since_break := 0
             current_time := c.current_time + cfg.break_duration_hours
             current_status := DutyStatus.OnDutyNotDriving }
  { s with clock := c'
           stops_rev :=
             { type := StopKind.ThirtyMinuteBreak
               duration := cfg.break_duration_hours
               location := none
               distance_from_start := s.distance } :: s.stops_rev
           logs_rev :=
             mkLogEntry c.current_time DutyStatus.OnDutyNotDriving "" 0 "30-minute break"
               :: s.logs_rev
           trace_rev := c' :: s.trace_rev }

/-- Spec section 4.2 step 2: emit `DailyRest10h`, reset `drive_hours_today`,
`on_duty_window_hours` and `hours_since_break`, advance the clock by ten hours,
status `SleeperBerth`. -/
def takeDailyRest (cfg : HosConfig) (s : SimState) : SimState :=
  let c := s.clock
  let c' : DutyClock :=
    { c with drive_hours_today := 0
             on_duty_window_hours := 0
             hours_since_break := 0
             current_time := c.current_time + cfg.daily_rest_hours
             current_status := DutyStatus.SleeperBerth }
  { s with clock := c'
           stops_rev :=
             { type := StopKind.DailyRest10h
               duration := cfg.daily_rest_hours
               location := none
               distance_from_start := s.distance } :: s.stops_rev
           logs_rev :=
             mkLogEntry c.current_time DutyStatus.SleeperBerth "" 0 "10-hour daily rest"
               :: s.logs_rev
           trace_rev := c' :: s.trace_rev }

/-- Spec section 4.2 step 3: emit `CycleReset34h`, reset `cycle_hours_used` and
the daily counters, advance the clock by thirty-four hours, status `OffDuty`. -/
def takeCycleReset (cfg : HosConfig) (s : SimState) : SimState :=
  let c := s.clock
  let c' : DutyClock :=
    { c with drive_hours_today := 0
             on_duty_window_hours := 0
             cycle_hours_used := 0
             hours_since_break := 0
             current_time := c.current_time + cfg.cycle_reset_hours
             current_status := DutyStatus.OffDuty }
  { s with clock := c'
           stops_rev :=
             { type := StopKind.CycleReset34h
               duration := cfg.cycle_reset_hours
               location := none
               distance_from_start := s.distance } :: s.stops_rev
           logs_rev :=
             mkLogEntry c.current_time DutyStatus.OffDuty "" 0 "34-hour cycle restart"
               :: s.logs_rev
           trace_rev := c' :: s.trace_rev }

/-- Spec section 4.2 step 6: a fuel stop every `fuel_interval_miles`, counted
as `OnDutyNotDriving` for half an hour; as a non-driving period of at least
thirty minutes it also restarts the break clock (spec section 3). -/
def takeFuel (cfg : HosConfig) (s : SimState) : SimState :=
  let c := s.clock
  let c' : DutyClock :=
    { c with hours_since_break := 0
             current_time := c.current_time + cfg.fuel_stop_hours
             current_status := DutyStatus.OnDutyNotDriving }
  { s with clock := c'
           dist_since_fuel := 0
           stops_rev :=
             { type := StopKind.Fuel
               duration := cfg.fuel_stop_hours
               location := none
               distance_from_start := s.distance } :: s.stops_rev
           logs_rev :=
             mkLogEntry c.current_time DutyStatus.OnDutyNotDriving "" 0 "Fuel stop"
               :: s.logs_rev
           trace_rev := c' :: s.trace_rev }

/-- Hours of driving admissible before the next mandatory stop: the least slack
among the break, daily-driving, duty-window, cycle and fuel-distance limits
(the fuel slack converted to hours at speed `v`). -/
def slackOf (cfg : HosConfig) (s : SimState) (v : ℚ) : ℚ :=
  min (min (cfg.break_threshold_hours - s.clock.hours_since_break)
           (min (cfg.max_drive_hours - s.clock.drive_hours_today)
                (cfg.max_window_hours - s.clock.on_duty_window_hours)))
      (min (cfg.max_cycle_hours - s.clock.cycle_hours_used)
           ((cfg.fuel_interval_miles - s.dist_since_fuel) / v))

/-- Emit the stop whose limit was reached, in the spec's tie-break priority
order `DailyRest10h` over `CycleReset34h` over `ThirtyMinuteBreak` over `Fuel`
(spec section 4.2): exactly one stop is emitted for the instant. -/
def emitTriggered (cfg : HosConfig) (s : SimState) : SimState :=
  if cfg.max_drive_hours ≤ s.clock.drive_hours_today ∨
      cfg.max_window_hours ≤ s.clock.on_duty_window_hours then
    takeDailyRest cfg s
  else if cfg.max_cycle_hours ≤ s.clock.cycle_hours_used then
    takeCycleReset cfg s
  else if cfg.break_threshold_hours ≤ s.clock.hours_since_break then
    takeBreak cfg s
  else
    takeFuel cfg s

/-- Simulate `r` remaining hours of driving at speed `v` in sub-segment slices
(spec section 4.2): drive up to the least slack, and if the segment is not yet
complete emit the triggered stop and continue.  The `gas` bound makes the
recursion structural; exhausting it models the defensive
`IncompleteSimulation` failure of spec section 4.5. -/
def driveLoop (cfg : HosConfig) (v : ℚ) (loc : String) :
    ℕ → ℚ → SimState → Option SimState
  | 0, _, _ => none
  | gas + 1, r, s =>
    if r ≤ 0 then some s
    else if r ≤ slackOf cfg s v then some (advanceDriving s v r loc)
    else
      driveLoop cfg v loc gas (r - max (slackOf cfg s v) 0)
        (emitTriggered cfg (advanceDriving s v (max (slackOf cfg s v) 0) loc))

/-- Handle a pickup or dropoff segment (spec section 4.2 step 5): the stop is
emitted unconditionally, counts toward `on_duty_window_hours` and
`cycle_hours_used` but not the driving caps, and, lasting at least thirty
minutes, restarts the break clock.  Because the handling time counts toward
the window and cycle limits, the engine first inserts the mandatory rest or
reset that would otherwise be overrun, preserving the invariants of spec
section 3. -/
def handlingEvent (s : SimState) (k : StopKind) (dur : ℚ) (loc : String) : SimState :=
  let c := s.clock
  let c' : DutyClock :=
    { c with on_duty_window_hours := c.on_duty_window_hours + dur
             cycle_hours_used := c.cycle_hours_used + dur
             hours_since_break := if 1/2 ≤ dur then 0 else c.hours_since_break
             current_time := c.current_time + dur
             current_status := DutyStatus.OnDutyNotDriving }
  { s with clock := c'
           stops_rev :=
             { type := k
               duration := dur
               location := some loc
               distance_from_start := s.distance } :: s.stops_rev
           logs_rev :=
             mkLogEntry c.current_time DutyStatus.OnDutyNotDriving loc 0 "On-duty handling"
               :: s.logs_rev
           trace_rev := c' :: s.trace_rev
           on_duty_accum := s.on_duty_accum + dur }

/-- A pickup/dropoff handling segment: insert a daily rest or cycle reset first
when the handling time would overrun the window or cycle limit, then perform
the handling itself. -/
def handleStop (cfg : HosConfig) (s : SimState) (k : StopKind) (dur : ℚ) (loc : String) :
    SimState :=
  let s1 :=
    if cfg.max_window_hours < s.clock.on_duty_window_hours + dur then takeDailyRest cfg s
    else s
  let s2 :=
    if cfg.max_cycle_hours < s1.clock.cycle_hours_used + dur then takeCycleReset cfg s1
    else s1
  handlingEvent s2 k dur loc

/-- A generous fixed iteration budget per segment: ample for any realistic
route, and exhausting it is exactly the defensive `IncompleteSimulation`
condition of spec section 4.5. -/
def simGas : ℕ := 240

/-- Simulate one route segment: travel segments drive at their average speed;
zero-distance travel segments are a no-op; pickup/dropoff segments perform
their handling event. -/
def runSegment (cfg : HosConfig) (s : SimState) (seg : RouteSegment) : Option SimState :=
  match seg.purpose with
  | SegPurpose.travel =>
    if seg.distance_miles = 0 then some s
    else
      driveLoop cfg (seg.distance_miles / seg.drive_duration_hours) seg.label simGas
        seg.drive_duration_hours s
  | SegPurpose.pickup =>
    some (handleStop cfg s StopKind.PickupHandling seg.drive_duration_hours seg.label)
  | SegPurpose.dropoff =>
    some (handleStop cfg s StopKind.DropoffHandling seg.drive_duration_hours seg.label)

/-- Simulate the ordered segment list. -/
def runSegments (cfg : HosConfig) : List RouteSegment → SimState → Option SimState
  | [], s => some s
  | seg :: rest, s => Option.bind (runSegment cfg s seg) (runSegments cfg rest)

/-- A routing leg is consistent when distance and duration are both positive or
both zero (spec section 4.1). -/
def validLeg (leg : LegInfo) : Prop :=
  (0 < leg.distance_miles ∧ 0 < leg.duration_hours) ∨
    (leg.distance_miles = 0 ∧ leg.duration_hours = 0)

instance (leg : LegInfo) : Decidable (validLeg leg) := by
  unfold validLeg
  infer_instance

/-- The Waypoint Sequencer (spec section 4.1): order the two travel legs and
insert the two synthetic zero-distance handling segments of fixed duration
immediately after the corresponding travel segment; fail with `InvalidRoute`
on an inconsistent leg. -/
def sequenceLegs (cfg : HosConfig) (inp : PlanInputs) :
    Except PlanError (List RouteSegment) :=
  if validLeg inp.leg1 ∧ validLeg inp.leg2 then
    Except.ok
      [ { wp_from := inp.current_coord
          wp_to := inp.pickup_coord
          distance_miles := inp.leg1.distance_miles
          drive_duration_hours := inp.leg1.duration_hours
          purpose := SegPurpose.travel
          label := inp.pickup_location }
      , { wp_from := inp.pickup_coord
          wp_to := inp.pickup_coord
          distance_miles := 0
          drive_duration_hours := cfg.handling_hours
          purpose := SegPurpose.pickup
          label := inp.pickup_location }
      , { wp_from := inp.pickup_coord
          wp_to := inp.dropoff_coord
          distance_miles := inp.leg2.distance_miles
          drive_duration_hours := inp.leg2.duration_hours
          purpose := SegPurpose.travel
          label := inp.dropoff_location }
      , { wp_from := inp.dropoff_coord
          wp_to := inp.dropoff_coord
          distance_miles := 0
          drive_duration_hours := cfg.handling_hours
          purpose := SegPurpose.dropoff
          label := inp.dropoff_location } ]
  else Except.error PlanError.invalidRoute

/-! ## Stop Inserter: merging coincident stops (spec section 4.3) -/

/-- Specificity/priority rank of a stop type, most specific first; the spec's
tie-break order places `DailyRest10h` over `CycleReset34h` over
`ThirtyMinuteBreak` over `Fuel`, and rest or reset over break or fuel. -/
def stopRank : StopKind → ℕ
  | StopKind.DailyRest10h => 0
  | StopKind.CycleReset34h => 1
  | StopKind.PickupHandling => 2
  | StopKind.DropoffHandling => 3
  | StopKind.ThirtyMinuteBreak => 4
  | StopKind.Fuel => 5

/-- Merge two stops at the same position: the more specific type, the longer
duration, the first available location (spec section 4.3). -/
def mergeTwo (a b : Stop) : Stop :=
  { type := if stopRank a.type ≤ stopRank b.type then a.type else b.type
    duration := max a.duration b.duration
    location := match a.location with
                | some l => some l
                | none => b.location
    distance_from_start := a.distance_from_start }

/-- Push a stop onto an already merged list, merging it with the head when the
positions coincide. -/
def insertMerged (a : Stop) : List Stop → List Stop
  | [] => [a]
  | b :: rest =>
    if a.distance_from_start = b.distance_from_start then mergeTwo a b :: rest
    else a :: b :: rest

/-- The Stop Inserter's dedup pass: merge every run of stops sharing one
trigger distance into a single stop. -/
def mergeStops (l : List Stop) : List Stop :=
  l.foldr insertMerged []

/-! ## Trip Result Assembler (spec section 4.5) -/

/-- Compose the final response: waypoint coordinates in distance order, the
exact sum of segment distances, the simulated wall-clock duration, the merged
stop list and the log rows in order. -/
def assemble (inp : PlanInputs) (segs : List RouteSegment) (s : SimState) : TripResult :=
  { route_coordinates := [inp.current_coord, inp.pickup_coord, inp.dropoff_coord]
    total_distance := (segs.map (fun seg => seg.distance_miles)).sum
    total_duration := s.clock.current_time
    stops := mergeStops s.stops_rev.reverse
    eld_logs := s.logs_rev.reverse }

/-- Modelled from the spec: the single operation the core exposes (spec
section 6).  Out-of-range `current_cycle_used` is rejected before any
simulation; an inconsistent leg fails as `InvalidRoute`; a simulation that
cannot consume the whole route fails as `IncompleteSimulation`. -/
def planTrip (cfg : HosConfig) (inp : PlanInputs) : Except PlanError TripResult :=
  if inp.current_cycle_used < 0 ∨ cfg.max_cycle_hours < inp.current_cycle_used then
    Except.error PlanError.validationError
  else
    match sequenceLegs cfg inp with
    | Except.error e => Except.error e
    | Except.ok segs =>
      match runSegments cfg segs (initState inp.current_cycle_used) with
      | none => Except.error PlanError.incompleteSimulation
      | some s => Except.ok (assemble inp segs s)

/-! ## Reconstructing segment distances from stop positions (for claim C5) -/

/-- The consecutive gaps of a position list, measured from `prev`. -/
def gapsFrom (prev : ℚ) : List ℚ → List ℚ
  | [] => []
  | d :: rest => (d - prev) :: gapsFrom d rest

/-- The last value of a position list, or `p` when it is empty. -/
def lastVal (p : ℚ) : List ℚ → ℚ
  | [] => p
  | d :: rest => lastVal d rest

/-- The positions of a stop list. -/
def stopDistances (l : List Stop) : List ℚ :=
  l.map (fun x => x.distance_from_start)

/-- Reconstruct route segments from the stop positions (gaps from the origin)
and sum their lengths. -/
def reconstructedTotal (stops : List Stop) : ℚ :=
  (gapsFrom 0 (stopDistances stops)).sum

/-! ## Lemmas about the Stop Inserter's merge pass -/

theorem mergeStops_cons (a : Stop) (l : List Stop) :
    mergeStops (a :: l) = insertMerged a (mergeStops l) := rfl

theorem insertMerged_head (a : Stop) (acc : List Stop) :
    ∃ t ts, insertMerged a acc = t :: ts ∧
      t.distance_from_start = a.distance_from_start := by
  cases acc with
  | nil => exact ⟨a, [], rfl, rfl⟩
  | cons b rest =>
    by_cases h : a.distance_from_start = b.distance_from_start
    · exact ⟨mergeTwo a b, rest, by simp [insertMerged, h], rfl⟩
    · exact ⟨a, b :: rest, by simp [insertMerged, h], rfl⟩

theorem mergeStops_head (a : Stop) (l : List Stop) :
    ∃ t ts, mergeStops (a :: l) = t :: ts ∧
      t.distance_from_start = a.distance_from_start := by
  rw [mergeStops_cons]
  exact insertMerged_head a (mergeStops l)

theorem mergeStops_chain_lt (l : List Stop)
    (h : List.Chain' (fun a b => a.distance_from_start ≤ b.distance_from_start) l) :
    List.Chain' (fun a b => a.distance_from_start < b.distance_from_start)
      (mergeStops l) := by
  induction l with
  | nil => simp [mergeStops]
  | cons a l ih =>
    rw [List.chain'_cons'] at h
    obtain ⟨hhead, htail⟩ := h
    have ihl := ih htail
    rw [mergeStops_cons]
    cases hml : mergeStops l with
    | nil => simp [insertMerged]
    | cons c cs =>
      rw [hml] at ihl
      rw [List.chain'_cons'] at ihl
      obtain ⟨chead, ctail⟩ := ihl
      by_cases hd : a.distance_from_start = c.distance_from_start
      · simp only [insertMerged, if_pos hd]
        rw [List.chain'_cons']
        constructor
        · intro x hx
          have := chead x hx
          simpa [mergeTwo, hd] using this
        · exact ctail
      · simp only [insertMerged, if_neg hd]
        rw [List.chain'_cons']
        refine ⟨?_, ?_⟩
        · intro x hx
          simp only [List.head?_cons, Option.mem_def, Option.some.injEq] at hx
          subst hx
          cases l with
          | nil => simp [mergeStops] at hml
          | cons y ys =>
            obtain ⟨t, ts, het, hts⟩ := mergeStops_head y ys
            rw [het] at hml
            have hct : t = c := (List.cons.injEq _ _ _ _).mp hml |>.1
            have hay : a.distance_from_start ≤ y.distance_from_start := by
              have := hhead y (by simp)
              exact this
            have : a.distance_from_start ≤ c.distance_from_start := by
              rw [← hct, hts]; exact hay
            exact lt_of_le_of_ne this hd
        · rw [List.chain'_cons']
          exact ⟨chead, ctail⟩

theorem mergeStops_forall (Q : Stop → Prop)
    (hQ : ∀ a b, Q a → Q b → Q (mergeTwo a b)) :
    ∀ l : List Stop, (∀ x ∈ l, Q x) → ∀ x ∈ mergeStops l, Q x := by
  intro l
  induction l with
  | nil => intro _ x hx; simp [mergeStops] at hx
  | cons a l ih =>
    intro hall x hx
    rw [mergeStops_cons] at hx
    have ha : Q a := hall a (by simp)
    have hrest : ∀ y ∈ l, Q y := fun y hy => hall y (by simp [hy])
    cases hml : mergeStops l with
    | nil =>
      rw [hml] at hx
      simp [insertMerged] at hx
      subst hx; exact ha
    | cons c cs =>
      rw [hml] at hx
      have hc : Q c := ih hrest c (by rw [hml]; simp)
      by_cases hd : a.distance_from_start = c.distance_from_start
      · simp only [insertMerged, if_pos hd, List.mem_cons] at hx
        rcases hx with hx | hx
        · subst hx; exact hQ a c ha hc
        · exact ih hrest x (by rw [hml]; simp [hx])
      · simp only [insertMerged, if_neg hd, List.mem_cons] at hx
        rcases hx with hx | hx
        · subst hx; exact ha
        · exact ih hrest x (by rw [hml]; simp [hx])

theorem lastVal_cons (p d : ℚ) (l : List ℚ) : lastVal p (d :: l) = lastVal d l := rfl

theorem lastVal_irrel (p q : ℚ) (l : List ℚ) (h : l ≠ []) : lastVal p l = lastVal q l := by
  cases l with
  | nil => exact absurd rfl h
  | cons d r => rfl

theorem insertMerged_lastVal (a : Stop) (acc : List Stop) (p : ℚ) :
    lastVal p (stopDistances (insertMerged a acc)) =
      lastVal p (stopDistances (a :: acc)) := by
  cases acc with
  | nil => rfl
  | cons b rest =>
    by_cases h : a.distance_from_start = b.distance_from_start
    · simp only [insertMerged, if_pos h, stopDistances, List.map_cons]
      rw [lastVal_cons, lastVal_cons, lastVal_cons]
      cases rest with
      | nil => simp [lastVal, mergeTwo, h]
      | cons u us => rw [List.map_cons, lastVal_cons, lastVal_cons]
    · simp [insertMerged, if_neg h]

theorem mergeStops_lastVal (l : List Stop) (p : ℚ) :
    lastVal p (stopDistances (mergeStops l)) = lastVal p (stopDistances l) := by
  induction l generalizing p with
  | nil => rfl
  | cons a l ih =>
    rw [mergeStops_cons, insertMerged_lastVal]
    simp only [stopDistances, List.map_cons, lastVal_cons]
    exact ih a.distance_from_start

theorem gapsFrom_sum (l : List ℚ) : ∀ p, (gapsFrom p l).sum = lastVal p l - p := by
  induction l with
  | nil => intro p; simp [gapsFrom, lastVal]
  | cons d r ih =>
    intro p
    simp only [gapsFrom, List.sum_cons, lastVal_cons, ih d]
    ring

theorem lastVal_append (l : List ℚ) (d : ℚ) : ∀ p, lastVal p (l ++ [d]) = d := by
  induction l with
  | nil => intro p; rfl
  | cons x xs ih => intro p; rw [List.cons_append, lastVal_cons, ih]

/-! ## The HOS invariants (spec section 3) and their preservation -/

/-- The duty-clock invariant of spec section 3: every counter sits inside its
regulatory cap (11h driving, 14h window, 70h cycle, 8h since break). -/
def ClockOk (c : DutyClock) : Prop :=
  0 ≤ c.drive_hours_today ∧ c.drive_hours_today ≤ 11 ∧
  0 ≤ c.on_duty_window_hours ∧ c.on_duty_window_hours ≤ 14 ∧
  0 ≤ c.cycle_hours_used ∧ c.cycle_hours_used ≤ 70 ∧
  0 ≤ c.hours_since_break ∧ c.hours_since_break ≤ 8

/-- The full simulation invariant: the clock and every traced clock are in
bounds, the fuel odometer is inside its interval, the emitted stops are
weakly ordered (newest first) and positioned within the distance travelled,
break stops last at least half an hour, and, as long as no cycle reset has
been emitted, the cycle clock equals the input hours plus all accumulated
on-duty time. -/
def SimInv (c0 : ℚ) (s : SimState) : Prop :=
  ClockOk s.clock ∧
  0 ≤ s.dist_since_fuel ∧ s.dist_since_fuel ≤ 1000 ∧
  (∀ c ∈ s.trace_rev, ClockOk c) ∧
  List.Chain' (fun a b => b.distance_from_start ≤ a.distance_from_start) s.stops_rev ∧
  (∀ x ∈ s.stops_rev, x.distance_from_start ≤ s.distance) ∧
  (∀ x ∈ s.stops_rev, x.type = StopKind.ThirtyMinuteBreak → 1/2 ≤ x.duration) ∧
  0 ≤ s.on_duty_accum ∧
  ((∀ x ∈ s.stops_rev, x.type ≠ StopKind.CycleReset34h) →
    s.clock.cycle_hours_used = c0 + s.on_duty_accum)

theorem chain_push (st : Stop) (l : List Stop) (D : ℚ)
    (hchain : List.Chain' (fun a b => b.distance_from_start ≤ a.distance_from_start) l)
    (hle : ∀ x ∈ l, x.distance_from_start ≤ D)
    (hst : D ≤ st.distance_from_start) :
    List.Chain' (fun a b => b.distance_from_start ≤ a.distance_from_start) (st :: l) := by
  rw [List.chain'_cons']
  refine ⟨?_, hchain⟩
  intro x hx
  exact le_trans (hle x (List.mem_of_mem_head? hx)) hst

theorem inv_init (c0 : ℚ) (h0 : 0 ≤ c0) (h70 : c0 ≤ 70) : SimInv c0 (initState c0) := by
  refine ⟨⟨le_refl 0, by norm_num [initState, initClock, takeBreak, takeDailyRest, takeCycleReset, takeFuel, defaultConfig], le_refl 0, by norm_num [initState, initClock, takeBreak, takeDailyRest, takeCycleReset, takeFuel, defaultConfig], h0, h70, le_refl 0, by norm_num [initState, initClock, takeBreak, takeDailyRest, takeCycleReset, takeFuel, defaultConfig]⟩,
    le_refl 0, by norm_num [initState, initClock, takeBreak, takeDailyRest, takeCycleReset, takeFuel, defaultConfig], ?_, ?_, ?_, ?_, le_refl 0, ?_⟩
  · intro c hc
    simp only [initState, List.mem_singleton] at hc
    subst hc
    exact ⟨le_refl 0, by norm_num [initState, initClock, takeBreak, takeDailyRest, takeCycleReset, takeFuel, defaultConfig], le_refl 0, by norm_num [initState, initClock, takeBreak, takeDailyRest, takeCycleReset, takeFuel, defaultConfig], h0, h70, le_refl 0, by norm_num [initState, initClock, takeBreak, takeDailyRest, takeCycleReset, takeFuel, defaultConfig]⟩
  · simp [initState]
  · simp [initState]
  · simp [initState]
  · intro _
    simp [initState, initClock]

theorem takeBreak_inv (c0 : ℚ) (s : SimState) (h : SimInv c0 s) :
    SimInv c0 (takeBreak defaultConfig s) := by
  obtain ⟨⟨h1, h2, h3, h4, h5, h6, h7, h8⟩, hf0, hf1, htr, hch, hle, hbrk, hacc, hg⟩ := h
  have hck : ClockOk (takeBreak defaultConfig s).clock :=
    ⟨h1, h2, h3, h4, h5, h6, le_refl 0, by norm_num [initState, initClock, takeBreak, takeDailyRest, takeCycleReset, takeFuel, defaultConfig]⟩
  refine ⟨hck, hf0, hf1, ?_, ?_, ?_, ?_, hacc, ?_⟩
  · intro c hc
    rcases List.mem_cons.mp hc with hc | hc
    · subst hc; exact hck
    · exact htr c hc
  · exact chain_push _ _ s.distance hch hle (le_refl _)
  · intro x hx
    rcases List.mem_cons.mp hx with hx | hx
    · subst hx; exact le_refl _
    · exact hle x hx
  · intro x hx hbx
    rcases List.mem_cons.mp hx with hx | hx
    · subst hx; norm_num [defaultConfig]
    · exact hbrk x hx hbx
  · intro hyp
    exact hg fun x hx => hyp x (List.mem_cons_of_mem _ hx)

theorem takeDailyRest_inv (c0 : ℚ) (s : SimState) (h : SimInv c0 s) :
    SimInv c0 (takeDailyRest defaultConfig s) := by
  obtain ⟨⟨h1, h2, h3, h4, h5, h6, h7, h8⟩, hf0, hf1, htr, hch, hle, hbrk, hacc, hg⟩ := h
  have hck : ClockOk (takeDailyRest defaultConfig s).clock :=
    ⟨le_refl 0, by norm_num [initState, initClock, takeBreak, takeDailyRest, takeCycleReset, takeFuel, defaultConfig], le_refl 0, by norm_num [initState, initClock, takeBreak, takeDailyRest, takeCycleReset, takeFuel, defaultConfig], h5, h6, le_refl 0, by norm_num [initState, initClock, takeBreak, takeDailyRest, takeCycleReset, takeFuel, defaultConfig]⟩
  refine ⟨hck, hf0, hf1, ?_, ?_, ?_, ?_, hacc, ?_⟩
  · intro c hc
    rcases List.mem_cons.mp hc with hc | hc
    · subst hc; exact hck
    · exact htr c hc
  · exact chain_push _ _ s.distance hch hle (le_refl _)
  · intro x hx
    rcases List.mem_cons.mp hx with hx | hx
    · subst hx; exact le_refl _
    · exact hle x hx
  · intro x hx hbx
    rcases List.mem_cons.mp hx with hx | hx
    · subst hx; simp [takeDailyRest] at hbx
    · exact hbrk x hx hbx
  · intro hyp
    exact hg fun x hx => hyp x (List.mem_cons_of_mem _ hx)

theorem takeCycleReset_inv (c0 : ℚ) (s : SimState) (h : SimInv c0 s) :
    SimInv c0 (takeCycleReset defaultConfig s) := by
  obtain ⟨⟨h1, h2, h3, h4, h5, h6, h7, h8⟩, hf0, hf1, htr, hch, hle, hbrk, hacc, hg⟩ := h
  have hck : ClockOk (takeCycleReset defaultConfig s).clock :=
    ⟨le_refl 0, by norm_num [initState, initClock, takeBreak, takeDailyRest, takeCycleReset, takeFuel, defaultConfig], le_refl 0, by norm_num [initState, initClock, takeBreak, takeDailyRest, takeCycleReset, takeFuel, defaultConfig], le_refl 0, by norm_num [initState, initClock, takeBreak, takeDailyRest, takeCycleReset, takeFuel, defaultConfig], le_refl 0,
      by norm_num [initState, initClock, takeBreak, takeDailyRest, takeCycleReset, takeFuel, defaultConfig]⟩
  refine ⟨hck, hf0, hf1, ?_, ?_, ?_, ?_, hacc, ?_⟩
  · intro c hc
    rcases List.mem_cons.mp hc with hc | hc
    · subst hc; exact hck
    · exact htr c hc
  · exact chain_push _ _ s.distance hch hle (le_refl _)
  · intro x hx
    rcases List.mem_cons.mp hx with hx | hx
    · subst hx; exact le_refl _
    · exact hle x hx
  · intro x hx hbx
    rcases List.mem_cons.mp hx with hx | hx
    · subst hx; simp [takeCycleReset] at hbx
    · exact hbrk x hx hbx
  · intro hyp
    exfalso
    exact hyp _ (List.mem_cons_self _ _) rfl

theorem takeFuel_inv (c0 : ℚ) (s : SimState) (h : SimInv c0 s) :
    SimInv c0 (takeFuel defaultConfig s) := by
  obtain ⟨⟨h1, h2, h3, h4, h5, h6, h7, h8⟩, hf0, hf1, htr, hch, hle, hbrk, hacc, hg⟩ := h
  have hck : ClockOk (takeFuel defaultConfig s).clock :=
    ⟨h1, h2, h3, h4, h5, h6, le_refl 0, by norm_num [initState, initClock, takeBreak, takeDailyRest, takeCycleReset, takeFuel, defaultConfig]⟩
  refine ⟨hck, le_refl 0, by norm_num [initState, initClock, takeBreak, takeDailyRest, takeCycleReset, takeFuel, defaultConfig], ?_, ?_, ?_, ?_, hacc, ?_⟩
  · intro c hc
    rcases List.mem_cons.mp hc with hc | hc
    · subst hc; exact hck
    · exact htr c hc
  · exact chain_push _ _ s.distance hch hle (le_refl _)
  · intro x hx
    rcases List.mem_cons.mp hx with hx | hx
    · subst hx; exact le_refl _
    · exact hle x hx
  · intro x hx hbx
    rcases List.mem_cons.mp hx with hx | hx
    · subst hx; simp [takeFuel] at hbx
    · exact hbrk x hx hbx
  · intro hyp
    exact hg fun x hx => hyp x (List.mem_cons_of_mem _ hx)

theorem emitTriggered_inv (c0 : ℚ) (s : SimState) (h : SimInv c0 s) :
    SimInv c0 (emitTriggered defaultConfig s) := by
  unfold emitTriggered
  split_ifs with h1 h2 h3
  · exact takeDailyRest_inv c0 s h
  · exact takeCycleReset_inv c0 s h
  · exact takeBreak_inv c0 s h
  · exact takeFuel_inv c0 s h

theorem advanceDriving_inv (c0 : ℚ) (s : SimState) (v d : ℚ) (loc : String)
    (h : SimInv c0 s) (hv : 0 < v) (hd : 0 ≤ d)
    (hB : s.clock.hours_since_break + d ≤ 8)
    (hD : s.clock.drive_hours_today + d ≤ 11)
    (hW : s.clock.on_duty_window_hours + d ≤ 14)
    (hC : s.clock.cycle_hours_used + d ≤ 70)
    (hF : s.dist_since_fuel + v * d ≤ 1000) :
    SimInv c0 (advanceDriving s v d loc) := by
  obtain ⟨⟨h1, h2, h3, h4, h5, h6, h7, h8⟩, hf0, hf1, htr, hch, hle, hbrk, hacc, hg⟩ := h
  have hvd : 0 ≤ v * d := mul_nonneg (le_of_lt hv) hd
  have hck : ClockOk (advanceDriving s v d loc).clock := by
    refine ⟨?_, ?_, ?_, ?_, ?_, ?_, ?_, ?_⟩ <;>
      simp only [advanceDriving] <;> linarith
  refine ⟨hck, ?_, ?_, ?_, ?_, ?_, ?_, ?_, ?_⟩
  · simp only [advanceDriving]; linarith
  · simp only [advanceDriving]; linarith
  · intro c hc
    simp only [advanceDriving, List.mem_cons] at hc
    rcases hc with hc | hc
    · subst hc
      have := hck
      simpa [advanceDriving] using this
    · exact htr c hc
  · simpa [advanceDriving] using hch
  · intro x hx
    simp only [advanceDriving] at hx ⊢
    exact le_trans (hle x hx) (by linarith)
  · intro x hx
    simp only [advanceDriving] at hx
    exact hbrk x hx
  · simp only [advanceDriving]; linarith
  · intro hyp
    simp only [advanceDriving] at hyp ⊢
    have := hg hyp
    linarith

theorem slack_le_break (cfg : HosConfig) (s : SimState) (v : ℚ) :
    slackOf cfg s v ≤ cfg.break_threshold_hours - s.clock.hours_since_break :=
  le_trans (min_le_left _ _) (min_le_left _ _)

theorem slack_le_drive (cfg : HosConfig) (s : SimState) (v : ℚ) :
    slackOf cfg s v ≤ cfg.max_drive_hours - s.clock.drive_hours_today :=
  le_trans (min_le_left _ _) (le_trans (min_le_right _ _) (min_le_left _ _))

theorem slack_le_window (cfg : HosConfig) (s : SimState) (v : ℚ) :
    slackOf cfg s v ≤ cfg.max_window_hours - s.clock.on_duty_window_hours :=
  le_trans (min_le_left _ _) (le_trans (min_le_right _ _) (min_le_right _ _))

theorem slack_le_cycle (cfg : HosConfig) (s : SimState) (v : ℚ) :
    slackOf cfg s v ≤ cfg.max_cycle_hours - s.clock.cycle_hours_used :=
  le_trans (min_le_right _ _) (min_le_left _ _)

theorem slack_le_fuel (cfg : HosConfig) (s : SimState) (v : ℚ) :
    slackOf cfg s v ≤ (cfg.fuel_interval_miles - s.dist_since_fuel) / v :=
  le_trans (min_le_right _ _) (min_le_right _ _)

theorem advance_bounds (c0 : ℚ) (s : SimState) (v d : ℚ) (loc : String)
    (h : SimInv c0 s) (hv : 0 < v) (hd : 0 ≤ d)
    (hds : d ≤ max (slackOf defaultConfig s v) 0) :
    SimInv c0 (advanceDriving s v d loc) := by
  obtain hci := h.1
  obtain ⟨h1, h2, h3, h4, h5, h6, h7, h8⟩ := hci
  rcases le_or_lt (slackOf defaultConfig s v) 0 with hs | hs
  · have hd0 : d ≤ 0 := le_trans hds (by simp [max_eq_right hs])
    have hdz : d = 0 := le_antisymm hd0 hd
    subst hdz
    refine advanceDriving_inv c0 s v 0 loc h hv (le_refl 0) ?_ ?_ ?_ ?_ ?_
    · linarith
    · linarith
    · linarith
    · linarith
    · have : v * 0 = 0 := by ring
      rw [this]
      have := h.2.2.1
      linarith
  · have hmax : max (slackOf defaultConfig s v) 0 = slackOf defaultConfig s v :=
      max_eq_left (le_of_lt hs)
    rw [hmax] at hds
    have hB := slack_le_break defaultConfig s v
    have hD := slack_le_drive defaultConfig s v
    have hW := slack_le_window defaultConfig s v
    have hC := slack_le_cycle defaultConfig s v
    have hF := slack_le_fuel defaultConfig s v
    rw [show defaultConfig.break_threshold_hours = (8:ℚ) from rfl] at hB
    rw [show defaultConfig.max_drive_hours = (11:ℚ) from rfl] at hD
    rw [show defaultConfig.max_window_hours = (14:ℚ) from rfl] at hW
    rw [show defaultConfig.max_cycle_hours = (70:ℚ) from rfl] at hC
    rw [show defaultConfig.fuel_interval_miles = (1000:ℚ) from rfl] at hF
    refine advanceDriving_inv c0 s v d loc h hv hd ?_ ?_ ?_ ?_ ?_
    · linarith
    · linarith
    · linarith
    · linarith
    · have hdf : d ≤ (1000 - s.dist_since_fuel) / v := le_trans hds hF
      have : d * v ≤ 1000 - s.dist_since_fuel := (le_div_iff₀ hv).mp hdf
      nlinarith

theorem takeBreak_distance (cfg : HosConfig) (s : SimState) :
    (takeBreak cfg s).distance = s.distance := rfl

theorem takeDailyRest_distance (cfg : HosConfig) (s : SimState) :
    (takeDailyRest cfg s).distance = s.distance := rfl

theorem takeCycleReset_distance (cfg : HosConfig) (s : SimState) :
    (takeCycleReset cfg s).distance = s.distance := rfl

theorem takeFuel_distance (cfg : HosConfig) (s : SimState) :
    (takeFuel cfg s).distance = s.distance := rfl

theorem emitTriggered_distance (cfg : HosConfig) (s : SimState) :
    (emitTriggered cfg s).distance = s.distance := by
  unfold emitTriggered
  split_ifs <;> rfl

theorem max_slack_le (r q : ℚ) (h0 : ¬ r ≤ 0) (h1 : ¬ r ≤ q) : max q 0 ≤ r := by
  push_neg at h0 h1
  exact max_le (le_of_lt h1) (le_of_lt h0)

theorem driveLoop_inv (c0 v : ℚ) (loc : String) (hv : 0 < v) :
    ∀ gas (r : ℚ) (s s' : SimState), SimInv c0 s → 0 ≤ r →
      driveLoop defaultConfig v loc gas r s = some s' → SimInv c0 s' := by
  intro gas
  induction gas with
  | zero =>
    intro r s s' _ _ h
    simp [driveLoop] at h
  | succ g ih =>
    intro r s s' hs hr h
    rw [driveLoop] at h
    by_cases h0 : r ≤ 0
    · rw [if_pos h0] at h
      injection h with h
      subst h
      exact hs
    · rw [if_neg h0] at h
      by_cases h1 : r ≤ slackOf defaultConfig s v
      · rw [if_pos h1] at h
        injection h with h
        subst h
        refine advance_bounds c0 s v r loc hs hv hr (le_trans h1 (le_max_left _ _))
      · rw [if_neg h1] at h
        have hd : max (slackOf defaultConfig s v) 0 ≤ r := max_slack_le r _ h0 h1
        refine ih _ _ _ ?_ ?_ h
        · exact emitTriggered_inv c0 _
            (advance_bounds c0 s v _ loc hs hv (le_max_right _ _) (le_refl _))
        · linarith

theorem advanceDriving_distance (s : SimState) (v d : ℚ) (loc : String) :
    (advanceDriving s v d loc).distance = s.distance + v * d := rfl

theorem driveLoop_distance (v : ℚ) (loc : String) :
    ∀ gas (r : ℚ) (s s' : SimState), 0 ≤ r →
      driveLoop defaultConfig v loc gas r s = some s' →
      s'.distance = s.distance + v * r := by
  intro gas
  induction gas with
  | zero =>
    intro r s s' _ h
    simp [driveLoop] at h
  | succ g ih =>
    intro r s s' hr h
    rw [driveLoop] at h
    by_cases h0 : r ≤ 0
    · rw [if_pos h0] at h
      injection h with h
      subst h
      have : r = 0 := le_antisymm h0 hr
      rw [this]
      ring
    · rw [if_neg h0] at h
      by_cases h1 : r ≤ slackOf defaultConfig s v
      · rw [if_pos h1] at h
        injection h with h
        subst h
        exact advanceDriving_distance s v r loc
      · rw [if_neg h1] at h
        have hd : max (slackOf defaultConfig s v) 0 ≤ r := max_slack_le r _ h0 h1
        have hrec := ih _ _ _ (by linarith) h
        rw [hrec, emitTriggered_distance, advanceDriving_distance]
        ring

theorem handlingEvent_inv (c0 : ℚ) (s : SimState) (k : StopKind) (dur : ℚ) (loc : String)
    (h : SimInv c0 s) (hd : 0 ≤ dur) (hk : k ≠ StopKind.ThirtyMinuteBreak)
    (hW : s.clock.on_duty_window_hours + dur ≤ 14)
    (hC : s.clock.cycle_hours_used + dur ≤ 70) :
    SimInv c0 (handlingEvent s k dur loc) := by
  obtain ⟨⟨h1, h2, h3, h4, h5, h6, h7, h8⟩, hf0, hf1, htr, hch, hle, hbrk, hacc, hg⟩ := h
  have hck : ClockOk (handlingEvent s k dur loc).clock := by
    refine ⟨h1, h2, by simp only [handlingEvent]; linarith,
      by simp only [handlingEvent]; linarith,
      by simp only [handlingEvent]; linarith,
      by simp only [handlingEvent]; linarith, ?_, ?_⟩
    · simp only [handlingEvent]
      split_ifs
      · exact le_refl 0
      · exact h7
    · simp only [handlingEvent]
      split_ifs
      · norm_num
      · exact h8
  refine ⟨hck, hf0, hf1, ?_, ?_, ?_, ?_, ?_, ?_⟩
  · intro c hc
    simp only [handlingEvent, List.mem_cons] at hc
    rcases hc with hc | hc
    · subst hc
      simpa [handlingEvent] using hck
    · exact htr c hc
  · exact chain_push _ _ s.distance hch hle (le_refl _)
  · intro x hx
    simp only [handlingEvent, List.mem_cons] at hx
    rcases hx with hx | hx
    · subst hx; exact le_refl _
    · exact hle x hx
  · intro x hx hbx
    simp only [handlingEvent, List.mem_cons] at hx
    rcases hx with hx | hx
    · subst hx; simp at hbx; exact absurd hbx hk
    · exact hbrk x hx hbx
  · simp only [handlingEvent]; linarith
  · intro hyp
    simp only [handlingEvent]
    have hyp' : ∀ x ∈ s.stops_rev, x.type ≠ StopKind.CycleReset34h := by
      intro x hx
      refine hyp x ?_
      simp only [handlingEvent, List.mem_cons]
      exact Or.inr hx
    have := hg hyp'
    linarith

theorem takeDailyRest_window (cfg : HosConfig) (s : SimState) :
    (takeDailyRest cfg s).clock.on_duty_window_hours = 0 := rfl

theorem takeDailyRest_cycle (cfg : HosConfig) (s : SimState) :
    (takeDailyRest cfg s).clock.cycle_hours_used = s.clock.cycle_hours_used := rfl

theorem takeCycleReset_window (cfg : HosConfig) (s : SimState) :
    (takeCycleReset cfg s).clock.on_duty_window_hours = 0 := rfl

theorem takeCycleReset_cycle (cfg : HosConfig) (s : SimState) :
    (takeCycleReset cfg s).clock.cycle_hours_used = 0 := rfl

theorem handleStop_inv (c0 : ℚ) (s : SimState) (k : StopKind) (dur : ℚ) (loc : String)
    (h : SimInv c0 s) (hd : 0 ≤ dur) (hd14 : dur ≤ 14) (hd70 : dur ≤ 70)
    (hk : k ≠ StopKind.ThirtyMinuteBreak) :
    SimInv c0 (handleStop defaultConfig s k dur loc) := by
  rw [handleStop]
  by_cases hw : defaultConfig.max_window_hours < s.clock.on_duty_window_hours + dur
  · rw [if_pos hw]
    by_cases hc : defaultConfig.max_cycle_hours <
        (takeDailyRest defaultConfig s).clock.cycle_hours_used + dur
    · rw [if_pos hc]
      refine handlingEvent_inv c0 _ k dur loc
        (takeCycleReset_inv c0 _ (takeDailyRest_inv c0 s h)) hd hk ?_ ?_
      · rw [takeCycleReset_window]; linarith
      · rw [takeCycleReset_cycle]; linarith
    · rw [if_neg hc]
      rw [show defaultConfig.max_cycle_hours = (70:ℚ) from rfl, takeDailyRest_cycle] at hc
      refine handlingEvent_inv c0 _ k dur loc (takeDailyRest_inv c0 s h) hd hk ?_ ?_
      · rw [takeDailyRest_window]; linarith
      · rw [takeDailyRest_cycle]; linarith
  · rw [if_neg hw]
    rw [show defaultConfig.max_window_hours = (14:ℚ) from rfl] at hw
    by_cases hc : defaultConfig.max_cycle_hours < s.clock.cycle_hours_used + dur
    · rw [if_pos hc]
      refine handlingEvent_inv c0 _ k dur loc (takeCycleReset_inv c0 s h) hd hk ?_ ?_
      · rw [takeCycleReset_window]; linarith
      · rw [takeCycleReset_cycle]; linarith
    · rw [if_neg hc]
      rw [show defaultConfig.max_cycle_hours = (70:ℚ) from rfl] at hc
      refine handlingEvent_inv c0 s k dur loc h hd hk ?_ ?_
      · linarith
      · linarith

/-- Well-formedness of a sequenced segment: travel segments come from a
consistent routing leg, handling segments are synthetic zero-distance events
of the default one-hour duration. -/
def WFSeg (seg : RouteSegment) : Prop :=
  (seg.purpose = SegPurpose.travel →
    (0 < seg.distance_miles ∧ 0 < seg.drive_duration_hours) ∨
      (seg.distance_miles = 0 ∧ seg.drive_duration_hours = 0)) ∧
  (seg.purpose ≠ SegPurpose.travel →
    seg.distance_miles = 0 ∧ seg.drive_duration_hours = 1)

theorem handleStop_distance (cfg : HosConfig) (s : SimState) (k : StopKind) (dur : ℚ)
    (loc : String) : (handleStop cfg s k dur loc).distance = s.distance := by
  rw [handleStop]
  split_ifs <;> rfl

theorem runSegment_inv (c0 : ℚ) (s s' : SimState) (seg : RouteSegment)
    (hwf : WFSeg seg) (hs : SimInv c0 s)
    (h : runSegment defaultConfig s seg = some s') : SimInv c0 s' := by
  obtain ⟨hwt, hwh⟩ := hwf
  cases hp : seg.purpose with
  | travel =>
    rw [runSegment, hp] at h
    by_cases hz : seg.distance_miles = 0
    · rw [if_pos hz] at h
      injection h with h
      subst h
      exact hs
    · rw [if_neg hz] at h
      rcases hwt hp with ⟨hdp, htp⟩ | ⟨hdz, _⟩
      · exact driveLoop_inv c0 _ seg.label (div_pos hdp htp) simGas
          seg.drive_duration_hours s s' hs (le_of_lt htp) h
      · exact absurd hdz hz
  | pickup =>
    rw [runSegment, hp] at h
    injection h with h
    subst h
    obtain ⟨_, hdur⟩ := hwh (by rw [hp]; intro hx; cases hx)
    rw [hdur]
    exact handleStop_inv c0 s _ 1 seg.label hs (by norm_num) (by norm_num) (by norm_num)
      (by intro hx; cases hx)
  | dropoff =>
    rw [runSegment, hp] at h
    injection h with h
    subst h
    obtain ⟨_, hdur⟩ := hwh (by rw [hp]; intro hx; cases hx)
    rw [hdur]
    exact handleStop_inv c0 s _ 1 seg.label hs (by norm_num) (by norm_num) (by norm_num)
      (by intro hx; cases hx)

theorem runSegment_distance (c0 : ℚ) (s s' : SimState) (seg : RouteSegment)
    (hwf : WFSeg seg) (h : runSegment defaultConfig s seg = some s') :
    s'.distance = s.distance + seg.distance_miles := by
  obtain ⟨hwt, hwh⟩ := hwf
  cases hp : seg.purpose with
  | travel =>
    rw [runSegment, hp] at h
    by_cases hz : seg.distance_miles = 0
    · rw [if_pos hz] at h
      injection h with h
      subst h
      rw [hz]; ring
    · rw [if_neg hz] at h
      rcases hwt hp with ⟨hdp, htp⟩ | ⟨hdz, _⟩
      · have := driveLoop_distance _ seg.label simGas seg.drive_duration_hours s s'
          (le_of_lt htp) h
        rw [this, div_mul_cancel₀ _ (ne_of_gt htp)]
      · exact absurd hdz hz
  | pickup =>
    rw [runSegment, hp] at h
    injection h with h
    subst h
    obtain ⟨hdz, _⟩ := hwh (by rw [hp]; intro hx; cases hx)
    rw [handleStop_distance, hdz]
    ring
  | dropoff =>
    rw [runSegment, hp] at h
    injection h with h
    subst h
    obtain ⟨hdz, _⟩ := hwh (by rw [hp]; intro hx; cases hx)
    rw [handleStop_distance, hdz]
    ring

theorem runSegments_inv (c0 : ℚ) :
    ∀ (segs : List RouteSegment) (s s' : SimState),
      (∀ seg ∈ segs, WFSeg seg) → SimInv c0 s →
      runSegments defaultConfig segs s = some s' → SimInv c0 s' := by
  intro segs
  induction segs with
  | nil =>
    intro s s' _ hs h
    injection h with h
    subst h
    exact hs
  | cons seg rest ih =>
    intro s s' hwf hs h
    rw [runSegments] at h
    cases hb : runSegment defaultConfig s seg with
    | none => rw [hb] at h; cases h
    | some s1 =>
      rw [hb] at h
      simp only [Option.some_bind] at h
      have hs1 := runSegment_inv c0 s s1 seg (hwf seg (by simp)) hs hb
      exact ih s1 s' (fun sg hsg => hwf sg (by simp [hsg])) hs1 h

theorem runSegments_distance (c0 : ℚ) :
    ∀ (segs : List RouteSegment) (s s' : SimState),
      (∀ seg ∈ segs, WFSeg seg) →
      runSegments defaultConfig segs s = some s' →
      s'.distance = s.distance + (segs.map (fun seg => seg.distance_miles)).sum := by
  intro segs
  induction segs with
  | nil =>
    intro s s' _ h
    injection h with h
    subst h
    simp
  | cons seg rest ih =>
    intro s s' hwf h
    rw [runSegments] at h
    cases hb : runSegment defaultConfig s seg with
    | none => rw [hb] at h; cases h
    | some s1 =>
      rw [hb] at h
      simp only [Option.some_bind] at h
      have h1 := runSegment_distance c0 s s1 seg (hwf seg (by simp)) hb
      have h2 := ih s1 s' (fun sg hsg => hwf sg (by simp [hsg])) h
      rw [h2, h1, List.map_cons, List.sum_cons]
      ring

theorem sequenceLegs_wf (inp : PlanInputs) (segs : List RouteSegment)
    (h : sequenceLegs defaultConfig inp = Except.ok segs) :
    ∀ seg ∈ segs, WFSeg seg := by
  rw [sequenceLegs] at h
  split_ifs at h with hv
  · injection h with h
    subst h
    obtain ⟨hv1, hv2⟩ := hv
    intro seg hseg
    simp only [List.mem_cons, List.not_mem_nil, or_false] at hseg
    rcases hseg with rfl | rfl | rfl | rfl
    · exact ⟨fun _ => hv1, fun hne => absurd rfl hne⟩
    · exact ⟨fun hab => SegPurpose.noConfusion hab, fun _ => ⟨rfl, rfl⟩⟩
    · exact ⟨fun _ => hv2, fun hne => absurd rfl hne⟩
    · exact ⟨fun hab => SegPurpose.noConfusion hab, fun _ => ⟨rfl, rfl⟩⟩

theorem planTrip_ok_elim (inp : PlanInputs) (res : TripResult)
    (h : planTrip defaultConfig inp = Except.ok res) :
    0 ≤ inp.current_cycle_used ∧ inp.current_cycle_used ≤ 70 ∧
      ∃ segs s, sequenceLegs defaultConfig inp = Except.ok segs ∧
        runSegments defaultConfig segs (initState inp.current_cycle_used) = some s ∧
        res = assemble inp segs s := by
  rw [planTrip] at h
  by_cases hval : inp.current_cycle_used < 0 ∨
      defaultConfig.max_cycle_hours < inp.current_cycle_used
  · rw [if_pos hval] at h
    exact Except.noConfusion h
  · rw [if_neg hval] at h
    push_neg at hval
    obtain ⟨hv0, hv70⟩ := hval
    rw [show defaultConfig.max_cycle_hours = (70:ℚ) from rfl] at hv70
    refine ⟨hv0, hv70, ?_⟩
    cases hseq : sequenceLegs defaultConfig inp with
    | error e =>
      rw [hseq] at h
      exact Except.noConfusion h
    | ok segs =>
      rw [hseq] at h
      dsimp only at h
      cases hrun : runSegments defaultConfig segs (initState inp.current_cycle_used) with
      | none =>
        rw [hrun] at h
        exact Except.noConfusion h
      | some s =>
        rw [hrun] at h
        injection h with h
        exact ⟨segs, s, rfl, hrun, h.symm⟩

theorem stops_sorted_of_inv (c0 : ℚ) (s : SimState) (h : SimInv c0 s) :
    List.Chain' (fun a b => a.distance_from_start < b.distance_from_start)
      (mergeStops s.stops_rev.reverse) := by
  apply mergeStops_chain_lt
  have hch := h.2.2.2.2.1
  rw [List.chain'_reverse]
  simpa [flip] using hch

theorem handleStop_stops (cfg : HosConfig) (s : SimState) (k : StopKind) (dur : ℚ)
    (loc : String) :
    ∃ rest, (handleStop cfg s k dur loc).stops_rev =
      ({ type := k, duration := dur, location := some loc,
         distance_from_start := s.distance } : Stop) :: rest := by
  rw [handleStop]
  split_ifs <;> exact ⟨_, rfl⟩

/-! ## Claims -/

/-- C9: for a present, non-empty `results.route.coordinates` the map centers on
its first element; when `results`, `results.route` or the coordinates array is
absent it centers on the fixed fallback `[39.8283, -98.5795]`; but a present,
empty coordinates array is truthy in JavaScript, so the unguarded `coords[0]`
yields `undefined` (modelled as `none`) instead of the fallback. -/
theorem c9_getMapCenter_cases (c : Coord) (cs : List Coord) :
    getMapCenter (some ⟨some ⟨some (c :: cs)⟩⟩) = some c ∧
    getMapCenter none = some usaCenter ∧
    getMapCenter (some ⟨none⟩) = some usaCenter ∧
    getMapCenter (some ⟨some ⟨none⟩⟩) = some usaCenter ∧
    getMapCenter (some ⟨some ⟨some ([] : List Coord)⟩⟩) = none :=
  ⟨rfl, rfl, rfl, rfl, rfl⟩

/-- C10: the marker popup label depends only on the position index: index 0 is
"Current Location", index 1 is "Pickup", and every index of two or more —
including all synthetic-stop coordinates after the second point — is labelled
"Dropoff". -/
theorem c10_marker_labels (n : ℕ) (coords : List Coord) (h : 2 ≤ n)
    (hn : n < coords.length) :
    markerLabel 0 = "Current Location" ∧ markerLabel 1 = "Pickup" ∧
    markerLabel n = "Dropoff" ∧
    (markerLabels coords).get? n = some "Dropoff" := by
  have hlab : markerLabel n = "Dropoff" := by
    rw [markerLabel, if_neg (by omega), if_neg (by omega)]
  refine ⟨rfl, rfl, hlab, ?_⟩
  rw [markerLabels, List.get?_eq_getElem?, List.getElem?_map, List.getElem?_range hn]
  simp [hlab]

/-- C6: each submission first clears any previous results and error, and the
outcome is all-or-nothing: on success the full response is stored with no
error; on failure no results are stored and only a non-empty error message is
shown; and the modelled core itself returns either one complete `TripResult`
or one error, never a partial result. -/
theorem c6_no_partial_results (s : AppState) (d : TripResult) (e : Option String)
    (inp : PlanInputs) :
    ((requestStart s).results = none ∧ (requestStart s).error = "" ∧
      (requestStart s).loading = true) ∧
    handleSubmit s (Except.ok d) =
      { results := some d, error := "", loading := false } ∧
    ((handleSubmit s (Except.error e)).results = none ∧
      (handleSubmit s (Except.error e)).error = errorMessage e ∧
      0 < (errorMessage e).length) ∧
    ((∃ r, planTrip defaultConfig inp = Except.ok r) ∨
      (∃ err, planTrip defaultConfig inp = Except.error err)) := by
  refine ⟨⟨rfl, rfl, rfl⟩, rfl, ⟨rfl, rfl, ?_⟩, ?_⟩
  · cases e with
    | none => decide
    | some m =>
      by_cases hm : m = ""
      · subst hm
        decide
      · rw [errorMessage, if_neg hm]
        cases m with
        | mk data =>
          cases data with
          | nil => exact absurd rfl hm
          | cons ch cs => simp [String.length]
  · cases hpt : planTrip defaultConfig inp with
    | ok r => exact Or.inl ⟨r, rfl⟩
    | error err => exact Or.inr ⟨err, rfl⟩

/-- C7: an input whose `current_cycle_used` lies outside `[0, 70]` is rejected
with `ValidationError` before any simulation, whatever the rest of the request
holds; and the client form constrains the field to `min 0`, `max 70`. -/
theorem c7_cycle_validation (inp : PlanInputs)
    (h : inp.current_cycle_used < 0 ∨ 70 < inp.current_cycle_used) :
    planTrip defaultConfig inp = Except.error PlanError.validationError ∧
    currentCycleUsedField.min = 0 ∧ currentCycleUsedField.max = 70 := by
  refine ⟨?_, rfl, rfl⟩
  rw [planTrip, if_pos]
  rw [show defaultConfig.max_cycle_hours = (70:ℚ) from rfl]
  exact h

/-- C8: `planTrip` is a pure function of the request and the collaborator
responses bundled in `PlanInputs`: identical inputs produce identical
`TripResult` values. -/
theorem c8_deterministic (i1 i2 : PlanInputs) (h : i1 = i2) :
    planTrip defaultConfig i1 = planTrip defaultConfig i2 := by
  rw [h]

/-- C1: along any simulated trip started from a validated cycle input, the
duty clock recorded after every simulation event keeps `drive_hours_today` at
or below 11 and `on_duty_window_hours` at or below 14: the engine inserts a
`DailyRest10h` stop (resetting both counters) before either cap could be
exceeded. -/
theorem c1_daily_limits (inp : PlanInputs) (segs : List RouteSegment) (s : SimState)
    (h0 : 0 ≤ inp.current_cycle_used) (h70 : inp.current_cycle_used ≤ 70)
    (hseq : sequenceLegs defaultConfig inp = Except.ok segs)
    (hrun : runSegments defaultConfig segs (initState inp.current_cycle_used) = some s)
    (c : DutyClock) (hc : c ∈ s.trace_rev) :
    c.drive_hours_today ≤ 11 ∧ c.on_duty_window_hours ≤ 14 := by
  have hwf := sequenceLegs_wf inp segs hseq
  have hinv := runSegments_inv inp.current_cycle_used segs _ s hwf
    (inv_init inp.current_cycle_used h0 h70) hrun
  obtain ⟨_, _, _, htr, _⟩ := hinv
  obtain ⟨_, hd, _, hw, _⟩ := htr c hc
  exact ⟨hd, hw⟩

/-- C2: the accumulated driving time since the last qualifying break —
`hours_since_break` on the clock recorded after every simulation event — never
exceeds 8; every `ThirtyMinuteBreak` stop in the produced stop list lasts at
least half an hour; taking a break resets the counter to zero, advances the
clock by exactly half an hour with status `OnDutyNotDriving`; and a break stop
is only ever emitted at a state whose `hours_since_break` has reached exactly
the 8-hour threshold. -/
theorem c2_break_rule (inp : PlanInputs) (segs : List RouteSegment) (s : SimState)
    (h0 : 0 ≤ inp.current_cycle_used) (h70 : inp.current_cycle_used ≤ 70)
    (hseq : sequenceLegs defaultConfig inp = Except.ok segs)
    (hrun : runSegments defaultConfig segs (initState inp.current_cycle_used) = some s)
    (c : DutyClock) (hc : c ∈ s.trace_rev)
    (x : Stop) (hx : x ∈ mergeStops s.stops_rev.reverse) (y : SimState) :
    c.hours_since_break ≤ 8 ∧
    (x.type = StopKind.ThirtyMinuteBreak → 1/2 ≤ x.duration) ∧
    ((takeBreak defaultConfig y).clock.hours_since_break = 0 ∧
      (takeBreak defaultConfig y).clock.current_status = DutyStatus.OnDutyNotDriving ∧
      (takeBreak defaultConfig y).clock.current_time = y.clock.current_time + 1/2) ∧
    ((emitTriggered defaultConfig y).stops_rev.head? =
        some { type := StopKind.ThirtyMinuteBreak, duration := 1/2, location := none,
               distance_from_start := y.distance } →
      8 ≤ y.clock.hours_since_break) := by
  have hwf := sequenceLegs_wf inp segs hseq
  have hinv := runSegments_inv inp.current_cycle_used segs _ s hwf
    (inv_init inp.current_cycle_used h0 h70) hrun
  obtain ⟨_, _, _, htr, _, _, hbrk, _⟩ := hinv
  obtain ⟨_, _, _, _, _, _, _, hb8⟩ := htr c hc
  refine ⟨hb8, ?_, ⟨rfl, rfl, rfl⟩, ?_⟩
  · refine mergeStops_forall
      (fun z => z.type = StopKind.ThirtyMinuteBreak → 1/2 ≤ z.duration) ?_ _ ?_ x hx
    · intro a b ha hb ht
      rw [mergeTwo] at ht ⊢
      by_cases hr : stopRank a.type ≤ stopRank b.type
      · rw [if_pos hr] at ht
        exact le_trans (ha ht) (le_max_left _ _)
      · rw [if_neg hr] at ht
        exact le_trans (hb ht) (le_max_right _ _)
    · intro z hz
      exact hbrk z (List.mem_reverse.mp hz)
  · rw [emitTriggered]
    split_ifs with hq1 hq2 hq3
    · intro heq
      simp [takeDailyRest] at heq
    · intro heq
      simp [takeCycleReset] at heq
    · intro _
      exact hq3
    · intro heq
      simp [takeFuel] at heq

/-- C3: along any simulated trip the cycle clock — input `current_cycle_used`
plus all accumulated on-duty and driving hours, minus reclaimed resets — never
exceeds 70 at any recorded point; and whenever the accumulated on-duty time
exceeds the remaining cycle capacity (for the 68-hour scenario, any on-duty
activity beyond 2 hours), a `CycleReset34h` stop has been inserted. -/
theorem c3_cycle_limit (inp : PlanInputs) (segs : List RouteSegment) (s : SimState)
    (h0 : 0 ≤ inp.current_cycle_used) (h70 : inp.current_cycle_used ≤ 70)
    (hseq : sequenceLegs defaultConfig inp = Except.ok segs)
    (hrun : runSegments defaultConfig segs (initState inp.current_cycle_used) = some s)
    (c : DutyClock) (hc : c ∈ s.trace_rev) :
    c.cycle_hours_used ≤ 70 ∧
    (70 - inp.current_cycle_used < s.on_duty_accum →
      StopKind.CycleReset34h ∈ s.stops_rev.map (fun x => x.type)) := by
  have hwf := sequenceLegs_wf inp segs hseq
  have hinv := runSegments_inv inp.current_cycle_used segs _ s hwf
    (inv_init inp.current_cycle_used h0 h70) hrun
  obtain ⟨⟨_, _, _, _, _, hc70, _, _⟩, _, _, htr, _, _, _, _, hg⟩ := hinv
  obtain ⟨_, _, _, _, _, hcyc, _, _⟩ := htr c hc
  refine ⟨hcyc, ?_⟩
  intro hacc
  by_contra habs
  have hns : ∀ x ∈ s.stops_rev, x.type ≠ StopKind.CycleReset34h := by
    intro x hxs heq
    exact habs (List.mem_map.mpr ⟨x, hxs, heq⟩)
  have heq := hg hns
  linarith

instance : IsTrans Stop (fun a b => a.distance_from_start < b.distance_from_start) :=
  ⟨fun _ _ _ hab hbc => lt_trans hab hbc⟩

/-- C4: the stop list of every produced `TripResult` is strictly increasing in
`distance_from_start` — hence no two stops share a `(type, distance)` pair and
no two stops occupy the same instant, coinciding triggers having been merged
into a single stop — and the merge priority ranks `DailyRest10h` above
`CycleReset34h` above `ThirtyMinuteBreak` above `Fuel`. -/
theorem c4_stop_ordering (inp : PlanInputs) (res : TripResult)
    (h : planTrip defaultConfig inp = Except.ok res) :
    List.Chain' (fun a b => a.distance_from_start < b.distance_from_start) res.stops ∧
    List.Pairwise
      (fun a b => ¬(a.type = b.type ∧ a.distance_from_start = b.distance_from_start))
      res.stops ∧
    stopRank StopKind.DailyRest10h < stopRank StopKind.CycleReset34h ∧
    stopRank StopKind.CycleReset34h < stopRank StopKind.ThirtyMinuteBreak ∧
    stopRank StopKind.ThirtyMinuteBreak < stopRank StopKind.Fuel := by
  obtain ⟨h0, h70, segs, s, hseq, hrun, hres⟩ := planTrip_ok_elim inp res h
  have hwf := sequenceLegs_wf inp segs hseq
  have hinv := runSegments_inv inp.current_cycle_used segs _ s hwf
    (inv_init inp.current_cycle_used h0 h70) hrun
  have hchain : List.Chain'
      (fun a b => a.distance_from_start < b.distance_from_start) res.stops := by
    rw [hres]
    exact stops_sorted_of_inv inp.current_cycle_used s hinv
  have hpw := List.chain'_iff_pairwise.mp hchain
  refine ⟨hchain, ?_, by decide, by decide, by decide⟩
  refine hpw.imp ?_
  intro a b hab hcon
  exact absurd hcon.2 (ne_of_lt hab)

theorem runSegments_four_elim (cfg : HosConfig) (a b c d : RouteSegment)
    (s0 s : SimState) (h : runSegments cfg [a, b, c, d] s0 = some s) :
    ∃ s1 s2 s3, runSegment cfg s0 a = some s1 ∧ runSegment cfg s1 b = some s2 ∧
      runSegment cfg s2 c = some s3 ∧ runSegment cfg s3 d = some s := by
  rw [runSegments] at h
  cases hb1 : runSegment cfg s0 a with
  | none => rw [hb1] at h; exact Option.noConfusion h
  | some s1 =>
    rw [hb1] at h
    simp only [Option.some_bind] at h
    rw [runSegments] at h
    cases hb2 : runSegment cfg s1 b with
    | none => rw [hb2] at h; exact Option.noConfusion h
    | some s2 =>
      rw [hb2] at h
      simp only [Option.some_bind] at h
      rw [runSegments] at h
      cases hb3 : runSegment cfg s2 c with
      | none => rw [hb3] at h; exact Option.noConfusion h
      | some s3 =>
        rw [hb3] at h
        simp only [Option.some_bind] at h
        rw [runSegments] at h
        cases hb4 : runSegment cfg s3 d with
        | none => rw [hb4] at h; exact Option.noConfusion h
        | some s4 =>
          rw [hb4] at h
          simp only [Option.some_bind] at h
          rw [runSegments] at h
          injection h with h
          subst h
          exact ⟨s1, s2, s3, rfl, hb2, hb3, hb4⟩

/-- C5: for every produced `TripResult`, `total_distance` is exactly the sum of
the two routed leg distances (the handling segments contribute zero), and
reconstructing segment lengths as the gaps between consecutive stop positions
(starting from the origin) sums back to exactly `total_distance`: the last
stop, the dropoff handling event, sits at the full route distance. -/
theorem c5_distance_roundtrip (inp : PlanInputs) (res : TripResult)
    (h : planTrip defaultConfig inp = Except.ok res) :
    res.total_distance = inp.leg1.distance_miles + inp.leg2.distance_miles ∧
    reconstructedTotal res.stops = res.total_distance := by
  obtain ⟨h0, h70, segs, s, hseq, hrun, hres⟩ := planTrip_ok_elim inp res h
  have hwf := sequenceLegs_wf inp segs hseq
  have hdist := runSegments_distance inp.current_cycle_used segs _ s hwf hrun
  rw [show (initState inp.current_cycle_used).distance = 0 from rfl] at hdist
  rw [sequenceLegs] at hseq
  split_ifs at hseq with hv
  · injection hseq with hsegs
    subst hsegs
    have htot : res.total_distance =
        inp.leg1.distance_miles + inp.leg2.distance_miles := by
      rw [hres]
      simp only [assemble, List.map_cons, List.map_nil, List.sum_cons, List.sum_nil]
      ring
    refine ⟨htot, ?_⟩
    have hsum : s.distance = inp.leg1.distance_miles + inp.leg2.distance_miles := by
      rw [hdist]
      simp only [List.map_cons, List.map_nil, List.sum_cons, List.sum_nil]
      ring
    obtain ⟨s1, s2, s3, hb1, hb2, hb3, hb4⟩ := runSegments_four_elim defaultConfig
      _ _ _ _ _ s hrun
    rw [runSegment] at hb4
    injection hb4 with hS
    obtain ⟨rest, hstops⟩ := handleStop_stops defaultConfig s3
      StopKind.DropoffHandling defaultConfig.handling_hours inp.dropoff_location
    have hsd : s.distance = s3.distance := by
      rw [← hS]
      exact handleStop_distance defaultConfig s3 _ _ _
    rw [hS] at hstops
    rw [hres]
    simp only [assemble]
    rw [reconstructedTotal, gapsFrom_sum, mergeStops_lastVal]
    rw [hstops, List.reverse_cons]
    simp only [stopDistances, List.map_append, List.map_cons, List.map_nil]
    rw [lastVal_append]
    simp only [List.sum_cons, List.sum_nil]
    linarith [hsum, hsd]

/-! ## Concrete sample trips used to witness the claims -/

/-- A small two-leg request: 100 miles / 2 hours per leg, fresh cycle. -/
def sampleInputs : PlanInputs :=
  { current_location := "A", pickup_location := "B", dropoff_location := "C"
    current_coord := (0, 0), pickup_coord := (1, 1), dropoff_coord := (2, 2)
    leg1 := { distance_miles := 100, duration_hours := 2 }
    leg2 := { distance_miles := 100, duration_hours := 2 }
    current_cycle_used := 0 }

def sseg1 : RouteSegment :=
  { wp_from := (0, 0), wp_to := (1, 1), distance_miles := 100, drive_duration_hours := 2
    purpose := SegPurpose.travel, label := "B" }

def sseg2 : RouteSegment :=
  { wp_from := (1, 1), wp_to := (1, 1), distance_miles := 0, drive_duration_hours := 1
    purpose := SegPurpose.pickup, label := "B" }

def sseg3 : RouteSegment :=
  { wp_from := (1, 1), wp_to := (2, 2), distance_miles := 100, drive_duration_hours := 2
    purpose := SegPurpose.travel, label := "C" }

def sseg4 : RouteSegment :=
  { wp_from := (2, 2), wp_to := (2, 2), distance_miles := 0, drive_duration_hours := 1
    purpose := SegPurpose.dropoff, label := "C" }

def sampleSegs : List RouteSegment := [sseg1, sseg2, sseg3, sseg4]

def sample0S1 : SimState :=
  { clock := { drive_hours_today := 2, on_duty_window_hours := 2, cycle_hours_used := 2,
               hours_since_break := 2, current_time := 2,
               current_status := DutyStatus.Driving }
    distance := 100
    dist_since_fuel := 100
    stops_rev := []
    logs_rev := [{ date := 0, time := 0, status := DutyStatus.Driving, location := "B",
                   hours_driven := 2, remarks := "Driving" }]
    trace_rev := [{ drive_hours_today := 2, on_duty_window_hours := 2, cycle_hours_used := 2,
                    hours_since_break := 2, current_time := 2,
                    current_status := DutyStatus.Driving },
                  { drive_hours_today := 0, on_duty_window_hours := 0, cycle_hours_used := 0,
                    hours_since_break := 0, current_time := 0,
                    current_status := DutyStatus.OffDuty }]
    on_duty_accum := 2 }

theorem sample0_e1 : runSegment defaultConfig (initState 0) sseg1 = some sample0S1 := by
  rw [runSegment]
  simp only [sseg1]
  rw [if_neg (by norm_num)]
  simp only [simGas]
  rw [driveLoop]
  rw [if_neg (by norm_num [slackOf, initState, initClock, defaultConfig])]
  rw [if_pos (by norm_num [slackOf, initState, initClock, defaultConfig])]
  norm_num [advanceDriving, mkLogEntry, initState, initClock, sample0S1]

def sample0S2 : SimState :=
  { clock := { drive_hours_today := 2, on_duty_window_hours := 3, cycle_hours_used := 3,
               hours_since_break := 0, current_time := 3,
               current_status := DutyStatus.OnDutyNotDriving }
    distance := 100
    dist_since_fuel := 100
    stops_rev := [{ type := StopKind.PickupHandling, duration := 1, location := some "B",
                    distance_from_start := 100 }]
    logs_rev := [{ date := 0, time := 2, status := DutyStatus.OnDutyNotDriving,
                   location := "B", hours_driven := 0, remarks := "On-duty handling" },
                 { date := 0, time := 0, status := DutyStatus.Driving, location := "B",
                   hours_driven := 2, remarks := "Driving" }]
    trace_rev := [{ drive_hours_today := 2, on_duty_window_hours := 3, cycle_hours_used := 3,
                    hours_since_break := 0, current_time := 3,
                    current_status := DutyStatus.OnDutyNotDriving },
                  { drive_hours_today := 2, on_duty_window_hours := 2, cycle_hours_used := 2,
                    hours_since_break := 2, current_time := 2,
                    current_status := DutyStatus.Driving },
                  { drive_hours_today := 0, on_duty_window_hours := 0, cycle_hours_used := 0,
                    hours_since_break := 0, current_time := 0,
                    current_status := DutyStatus.OffDuty }]
    on_duty_accum := 3 }

theorem sample0_e2 : runSegment defaultConfig sample0S1 sseg2 = some sample0S2 := by
  rw [runSegment]
  simp only [sseg2]
  rw [handleStop]
  rw [if_neg (by norm_num [sample0S1, defaultConfig])]
  rw [if_neg (by norm_num [sample0S1, defaultConfig])]
  norm_num [handlingEvent, mkLogEntry, sample0S1, sample0S2]

def sample0S3 : SimState :=
  { clock := { drive_hours_today := 4, on_duty_window_hours := 5, cycle_hours_used := 5,
               hours_since_break := 2, current_time := 5,
               current_status := DutyStatus.Driving }
    distance := 200
    dist_since_fuel := 200
    stops_rev := [{ type := StopKind.PickupHandling, duration := 1, location := some "B",
                    distance_from_start := 100 }]
    logs_rev := [{ date := 0, time := 3, status := DutyStatus.Driving, location := "C",
                   hours_driven := 2, remarks := "Driving" },
                 { date := 0, time := 2, status := DutyStatus.OnDutyNotDriving,
                   location := "B", hours_driven := 0, remarks := "On-duty handling" },
                 { date := 0, time := 0, status := DutyStatus.Driving, location := "B",
                   hours_driven := 2, remarks := "Driving" }]
    trace_rev := [{ drive_hours_today := 4, on_duty_window_hours := 5, cycle_hours_used := 5,
                    hours_since_break := 2, current_time := 5,
                    current_status := DutyStatus.Driving },
                  { drive_hours_today := 2, on_duty_window_hours := 3, cycle_hours_used := 3,
                    hours_since_break := 0, current_time := 3,
                    current_status := DutyStatus.OnDutyNotDriving },
                  { drive_hours_today := 2, on_duty_window_hours := 2, cycle_hours_used := 2,
                    hours_since_break := 2, current_time := 2,
                    current_status := DutyStatus.Driving },
                  { drive_hours_today := 0, on_duty_window_hours := 0, cycle_hours_used := 0,
                    hours_since_break := 0, current_time := 0,
                    current_status := DutyStatus.OffDuty }]
    on_duty_accum := 5 }

theorem sample0_e3 : runSegment defaultConfig sample0S2 sseg3 = some sample0S3 := by
  rw [runSegment]
  simp only [sseg3]
  rw [if_neg (by norm_num)]
  simp only [simGas]
  rw [driveLoop]
  rw [if_neg (by norm_num [slackOf, sample0S2, defaultConfig])]
  rw [if_pos (by norm_num [slackOf, sample0S2, defaultConfig])]
  norm_num [advanceDriving, mkLogEntry, sample0S2, sample0S3]

def sample0Final : SimState :=
  { clock := { drive_hours_today := 4, on_duty_window_hours := 6, cycle_hours_used := 6,
               hours_since_break := 0, current_time := 6,
               current_status := DutyStatus.OnDutyNotDriving }
    distance := 200
    dist_since_fuel := 200
    stops_rev := [{ type := StopKind.DropoffHandling, duration := 1, location := some "C",
                    distance_from_start := 200 },
                  { type := StopKind.PickupHandling, duration := 1, location := some "B",
                    distance_from_start := 100 }]
    logs_rev := [{ date := 0, time := 5, status := DutyStatus.OnDutyNotDriving,
                   location := "C", hours_driven := 0, remarks := "On-duty handling" },
                 { date := 0, time := 3, status := DutyStatus.Driving, location := "C",
                   hours_driven := 2, remarks := "Driving" },
                 { date := 0, time := 2, status := DutyStatus.OnDutyNotDriving,
                   location := "B", hours_driven := 0, remarks := "On-duty handling" },
                 { date := 0, time := 0, status := DutyStatus.Driving, location := "B",
                   hours_driven := 2, remarks := "Driving" }]
    trace_rev := [{ drive_hours_today := 4, on_duty_window_hours := 6, cycle_hours_used := 6,
                    hours_since_break := 0, current_time := 6,
                    current_status := DutyStatus.OnDutyNotDriving },
                  { drive_hours_today := 4, on_duty_window_hours := 5, cycle_hours_used := 5,
                    hours_since_break := 2, current_time := 5,
                    current_status := DutyStatus.Driving },
                  { drive_hours_today := 2, on_duty_window_hours := 3, cycle_hours_used := 3,
                    hours_since_break := 0, current_time := 3,
                    current_status := DutyStatus.OnDutyNotDriving },
                  { drive_hours_today := 2, on_duty_window_hours := 2, cycle_hours_used := 2,
                    hours_since_break := 2, current_time := 2,
                    current_status := DutyStatus.Driving },
                  { drive_hours_today := 0, on_duty_window_hours := 0, cycle_hours_used := 0,
                    hours_since_break := 0, current_time := 0,
                    current_status := DutyStatus.OffDuty }]
    on_duty_accum := 6 }

theorem sample0_e4 : runSegment defaultConfig sample0S3 sseg4 = some sample0Final := by
  rw [runSegment]
  simp only [sseg4]
  rw [handleStop]
  rw [if_neg (by norm_num [sample0S3, defaultConfig])]
  rw [if_neg (by norm_num [sample0S3, defaultConfig])]
  norm_num [handlingEvent, mkLogEntry, sample0S3, sample0Final]

theorem runSegments_four_intro (cfg : HosConfig) (a b c d : RouteSegment)
    (s0 s1 s2 s3 s4 : SimState)
    (h1 : runSegment cfg s0 a = some s1) (h2 : runSegment cfg s1 b = some s2)
    (h3 : runSegment cfg s2 c = some s3) (h4 : runSegment cfg s3 d = some s4) :
    runSegments cfg [a, b, c, d] s0 = some s4 := by
  rw [runSegments, h1]
  simp only [Option.some_bind]
  rw [runSegments, h2]
  simp only [Option.some_bind]
  rw [runSegments, h3]
  simp only [Option.some_bind]
  rw [runSegments, h4]
  simp only [Option.some_bind]
  rw [runSegments]

theorem run0_eq :
    runSegments defaultConfig sampleSegs (initState 0) = some sample0Final :=
  runSegments_four_intro defaultConfig sseg1 sseg2 sseg3 sseg4 _ _ _ _ _
    sample0_e1 sample0_e2 sample0_e3 sample0_e4

theorem seq0_eq : sequenceLegs defaultConfig sampleInputs = Except.ok sampleSegs := by
  norm_num [sequenceLegs, validLeg, sampleInputs, sampleSegs, defaultConfig,
    sseg1, sseg2, sseg3, sseg4]

/-- The full response of the sample trip. -/
def sampleResult : TripResult :=
  { route_coordinates := [(0, 0), (1, 1), (2, 2)]
    total_distance := 200
    total_duration := 6
    stops := [{ type := StopKind.PickupHandling, duration := 1, location := some "B",
                distance_from_start := 100 },
              { type := StopKind.DropoffHandling, duration := 1, location := some "C",
                distance_from_start := 200 }]
    eld_logs := [{ date := 0, time := 0, status := DutyStatus.Driving, location := "B",
                   hours_driven := 2, remarks := "Driving" },
                 { date := 0, time := 2, status := DutyStatus.OnDutyNotDriving,
                   location := "B", hours_driven := 0, remarks := "On-duty handling" },
                 { date := 0, time := 3, status := DutyStatus.Driving, location := "C",
                   hours_driven := 2, remarks := "Driving" },
                 { date := 0, time := 5, status := DutyStatus.OnDutyNotDriving,
                   location := "C", hours_driven := 0, remarks := "On-duty handling" }] }

theorem plan0_eq : planTrip defaultConfig sampleInputs = Except.ok sampleResult := by
  rw [planTrip]
  rw [if_neg (by norm_num [sampleInputs, defaultConfig])]
  rw [seq0_eq]
  dsimp only
  rw [show sampleInputs.current_cycle_used = (0:ℚ) from rfl, run0_eq]
  dsimp only
  norm_num [assemble, sampleInputs, sampleSegs, sample0Final, sampleResult,
    mergeStops, insertMerged, mergeTwo, stopRank, sseg1, sseg2, sseg3, sseg4]

/-- The cycle-reset scenario: `current_cycle_used = 68` with a 150-mile first
leg, forcing a `CycleReset34h` two hours into the drive. -/
def sampleInputs68 : PlanInputs :=
  { current_location := "A", pickup_location := "B", dropoff_location := "C"
    current_coord := (0, 0), pickup_coord := (1, 1), dropoff_coord := (2, 2)
    leg1 := { distance_miles := 150, duration_hours := 3 }
    leg2 := { distance_miles := 100, duration_hours := 2 }
    current_cycle_used := 68 }

def sseg68a : RouteSegment :=
  { wp_from := (0, 0), wp_to := (1, 1), distance_miles := 150, drive_duration_hours := 3
    purpose := SegPurpose.travel, label := "B" }

def sampleSegs68 : List RouteSegment := [sseg68a, sseg2, sseg3, sseg4]

theorem seq68_eq :
    sequenceLegs defaultConfig sampleInputs68 = Except.ok sampleSegs68 := by
  norm_num [sequenceLegs, validLeg, sampleInputs68, sampleSegs68, defaultConfig,
    sseg68a, sseg2, sseg3, sseg4]

def sample68S1 : SimState :=
  { clock := { drive_hours_today := 1, on_duty_window_hours := 1, cycle_hours_used := 1,
               hours_since_break := 1, current_time := 37,
               current_status := DutyStatus.Driving }
    distance := 150
    dist_since_fuel := 150
    stops_rev := [{ type := StopKind.CycleReset34h, duration := 34, location := none,
                    distance_from_start := 100 }]
    logs_rev := [{ date := 1, time := 12, status := DutyStatus.Driving, location := "B",
                   hours_driven := 1, remarks := "Driving" },
                 { date := 0, time := 2, status := DutyStatus.OffDuty, location := "",
                   hours_driven := 0, remarks := "34-hour cycle restart" },
                 { date := 0, time := 0, status := DutyStatus.Driving, location := "B",
                   hours_driven := 2, remarks := "Driving" }]
    trace_rev := [{ drive_hours_today := 1, on_duty_window_hours := 1, cycle_hours_used := 1,
                    hours_since_break := 1, current_time := 37,
                    current_status := DutyStatus.Driving },
                  { drive_hours_today := 0, on_duty_window_hours := 0, cycle_hours_used := 0,
                    hours_since_break := 0, current_time := 36,
                    current_status := DutyStatus.OffDuty },
                  { drive_hours_today := 2, on_duty_window_hours := 2, cycle_hours_used := 70,
                    hours_since_break := 2, current_time := 2,
                    current_status := DutyStatus.Driving },
                  { drive_hours_today := 0, on_duty_window_hours := 0, cycle_hours_used := 68,
                    hours_since_break := 0, current_time := 0,
                    current_status := DutyStatus.OffDuty }]
    on_duty_accum := 3 }

theorem sample68_e1 : runSegment defaultConfig (initState 68) sseg68a = some sample68S1 := by
  rw [runSegment]
  simp only [sseg68a]
  rw [if_neg (by norm_num)]
  simp only [simGas]
  rw [driveLoop]
  rw [if_neg (by norm_num [slackOf, initState, initClock, defaultConfig])]
  rw [if_neg (by norm_num [slackOf, initState, initClock, defaultConfig])]
  norm_num [slackOf, initState, initClock, defaultConfig, emitTriggered, advanceDriving,
    takeDailyRest, takeCycleReset, takeBreak, takeFuel, mkLogEntry]
  rw [driveLoop]
  rw [if_neg (by norm_num)]
  rw [if_pos (by norm_num [slackOf, defaultConfig])]
  norm_num [advanceDriving, mkLogEntry, sample68S1]

def sample68S2 : SimState :=
  { clock := { drive_hours_today := 1, on_duty_window_hours := 2, cycle_hours_used := 2,
               hours_since_break := 0, current_time := 38,
               current_status := DutyStatus.OnDutyNotDriving }
    distance := 150
    dist_since_fuel := 150
    stops_rev := [{ type := StopKind.PickupHandling, duration := 1, location := some "B",
                    distance_from_start := 150 },
                  { type := StopKind.CycleReset34h, duration := 34, location := none,
                    distance_from_start := 100 }]
    logs_rev := [{ date := 1, time := 13, status := DutyStatus.OnDutyNotDriving,
                   location := "B", hours_driven := 0, remarks := "On-duty handling" },
                 { date := 1, time := 12, status := DutyStatus.Driving, location := "B",
                   hours_driven := 1, remarks := "Driving" },
                 { date := 0, time := 2, status := DutyStatus.OffDuty, location := "",
                   hours_driven := 0, remarks := "34-hour cycle restart" },
                 { date := 0, time := 0, status := DutyStatus.Driving, location := "B",
                   hours_driven := 2, remarks := "Driving" }]
    trace_rev := [{ drive_hours_today := 1, on_duty_window_hours := 2, cycle_hours_used := 2,
                    hours_since_break := 0, current_time := 38,
                    current_status := DutyStatus.OnDutyNotDriving },
                  { drive_hours_today := 1, on_duty_window_hours := 1, cycle_hours_used := 1,
                    hours_since_break := 1, current_time := 37,
                    current_status := DutyStatus.Driving },
                  { drive_hours_today := 0, on_duty_window_hours := 0, cycle_hours_used := 0,
                    hours_since_break := 0, current_time := 36,
                    current_status := DutyStatus.OffDuty },
                  { drive_hours_today := 2, on_duty_window_hours := 2, cycle_hours_used := 70,
                    hours_since_break := 2, current_time := 2,
                    current_status := DutyStatus.Driving },
                  { drive_hours_today := 0, on_duty_window_hours := 0, cycle_hours_used := 68,
                    hours_since_break := 0, current_time := 0,
                    current_status := DutyStatus.OffDuty }]
    on_duty_accum := 4 }

theorem sample68_e2 : runSegment defaultConfig sample68S1 sseg2 = some sample68S2 := by
  rw [runSegment]
  simp only [sseg2]
  rw [handleStop]
  rw [if_neg (by norm_num [sample68S1, defaultConfig])]
  rw [if_neg (by norm_num [sample68S1, defaultConfig])]
  norm_num [handlingEvent, mkLogEntry, sample68S1, sample68S2]

def sample68S3 : SimState :=
  { clock := { drive_hours_today := 3, on_duty_window_hours := 4, cycle_hours_used := 4,
               hours_since_break := 2, current_time := 40,
               current_status := DutyStatus.Driving }
    distance := 250
    dist_since_fuel := 250
    stops_rev := [{ type := StopKind.PickupHandling, duration := 1, location := some "B",
                    distance_from_start := 150 },
                  { type := StopKind.CycleReset34h, duration := 34, location := none,
                    distance_from_start := 100 }]
    logs_rev := [{ date := 1, time := 14, status := DutyStatus.Driving, location := "C",
                   hours_driven := 2, remarks := "Driving" },
                 { date := 1, time := 13, status := DutyStatus.OnDutyNotDriving,
                   location := "B", hours_driven := 0, remarks := "On-duty handling" },
                 { date := 1, time := 12, status := DutyStatus.Driving, location := "B",
                   hours_driven := 1, remarks := "Driving" },
                 { date := 0, time := 2, status := DutyStatus.OffDuty, location := "",
                   hours_driven := 0, remarks := "34-hour cycle restart" },
                 { date := 0, time := 0, status := DutyStatus.Driving, location := "B",
                   hours_driven := 2, remarks := "Driving" }]
    trace_rev := [{ drive_hours_today := 3, on_duty_window_hours := 4, cycle_hours_used := 4,
                    hours_since_break := 2, current_time := 40,
                    current_status := DutyStatus.Driving },
                  { drive_hours_today := 1, on_duty_window_hours := 2, cycle_hours_used := 2,
                    hours_since_break := 0, current_time := 38,
                    current_status := DutyStatus.OnDutyNotDriving },
                  { drive_hours_today := 1, on_duty_window_hours := 1, cycle_hours_used := 1,
                    hours_since_break := 1, current_time := 37,
                    current_status := DutyStatus.Driving },
                  { drive_hours_today := 0, on_duty_window_hours := 0, cycle_hours_used := 0,
                    hours_since_break := 0, current_time := 36,
                    current_status := DutyStatus.OffDuty },
                  { drive_hours_today := 2, on_duty_window_hours := 2, cycle_hours_used := 70,
                    hours_since_break := 2, current_time := 2,
                    current_status := DutyStatus.Driving },
                  { drive_hours_today := 0, on_duty_window_hours := 0, cycle_hours_used := 68,
                    hours_since_break := 0, current_time := 0,
                    current_status := DutyStatus.OffDuty }]
    on_duty_accum := 6 }

theorem sample68_e3 : runSegment defaultConfig sample68S2 sseg3 = some sample68S3 := by
  rw [runSegment]
  simp only [sseg3]
  rw [if_neg (by norm_num)]
  simp only [simGas]
  rw [driveLoop]
  rw [if_neg (by norm_num [slackOf, sample68S2, defaultConfig])]
  rw [if_pos (by norm_num [slackOf, sample68S2, defaultConfig])]
  norm_num [advanceDriving, mkLogEntry, sample68S2, sample68S3]

def sample68Final : SimState :=
  { clock := { drive_hours_today := 3, on_duty_window_hours := 5, cycle_hours_used := 5,
               hours_since_break := 0, current_time := 41,
               current_status := DutyStatus.OnDutyNotDriving }
    distance := 250
    dist_since_fuel := 250
    stops_rev := [{ type := StopKind.DropoffHandling, duration := 1, location := some "C",
                    distance_from_start := 250 },
                  { type := StopKind.PickupHandling, duration := 1, location := some "B",
                    distance_from_start := 150 },
                  { type := StopKind.CycleReset34h, duration := 34, location := none,
                    distance_from_start := 100 }]
    logs_rev := [{ date := 1, time := 16, status := DutyStatus.OnDutyNotDriving,
                   location := "C", hours_driven := 0, remarks := "On-duty handling" },
                 { date := 1, time := 14, status := DutyStatus.Driving, location := "C",
                   hours_driven := 2, remarks := "Driving" },
                 { date := 1, time := 13, status := DutyStatus.OnDutyNotDriving,
                   location := "B", hours_driven := 0, remarks := "On-duty handling" },
                 { date := 1, time := 12, status := DutyStatus.Driving, location := "B",
                   hours_driven := 1, remarks := "Driving" },
                 { date := 0, time := 2, status := DutyStatus.OffDuty, location := "",
                   hours_driven := 0, remarks := "34-hour cycle restart" },
                 { date := 0, time := 0, status := DutyStatus.Driving, location := "B",
                   hours_driven := 2, remarks := "Driving" }]
    trace_rev := [{ drive_hours_today := 3, on_duty_window_hours := 5, cycle_hours_used := 5,
                    hours_since_break := 0, current_time := 41,
                    current_status := DutyStatus.OnDutyNotDriving },
                  { drive_hours_today := 3, on_duty_window_hours := 4, cycle_hours_used := 4,
                    hours_since_break := 2, current_time := 40,
                    current_status := DutyStatus.Driving },
                  { drive_hours_today := 1, on_duty_window_hours := 2, cycle_hours_used := 2,
                    hours_since_break := 0, current_time := 38,
                    current_status := DutyStatus.OnDutyNotDriving },
                  { drive_hours_today := 1, on_duty_window_hours := 1, cycle_hours_used := 1,
                    hours_since_break := 1, current_time := 37,
                    current_status := DutyStatus.Driving },
                  { drive_hours_today := 0, on_duty_window_hours := 0, cycle_hours_used := 0,
                    hours_since_break := 0, current_time := 36,
                    current_status := DutyStatus.OffDuty },
                  { drive_hours_today := 2, on_duty_window_hours := 2, cycle_hours_used := 70,
                    hours_since_break := 2, current_time := 2,
                    current_status := DutyStatus.Driving },
                  { drive_hours_today := 0, on_duty_window_hours := 0, cycle_hours_used := 68,
                    hours_since_break := 0, current_time := 0,
                    current_status := DutyStatus.OffDuty }]
    on_duty_accum := 7 }

theorem sample68_e4 : runSegment defaultConfig sample68S3 sseg4 = some sample68Final := by
  rw [runSegment]
  simp only [sseg4]
  rw [handleStop]
  rw [if_neg (by norm_num [sample68S3, defaultConfig])]
  rw [if_neg (by norm_num [sample68S3, defaultConfig])]
  norm_num [handlingEvent, mkLogEntry, sample68S3, sample68Final]

theorem run68_eq :
    runSegments defaultConfig sampleSegs68 (initState 68) = some sample68Final :=
  runSegments_four_intro defaultConfig sseg68a sseg2 sseg3 sseg4 _ _ _ _ _
    sample68_e1 sample68_e2 sample68_e3 sample68_e4

/-! ## Witnesses: the claims applied at the concrete sample trips -/

def sampleClock0 : DutyClock :=
  { drive_hours_today := 4, on_duty_window_hours := 6, cycle_hours_used := 6,
    hours_since_break := 0, current_time := 6,
    current_status := DutyStatus.OnDutyNotDriving }

def sampleClock68 : DutyClock :=
  { drive_hours_today := 2, on_duty_window_hours := 2, cycle_hours_used := 70,
    hours_since_break := 2, current_time := 2, current_status := DutyStatus.Driving }

def samplePickupStop : Stop :=
  { type := StopKind.PickupHandling, duration := 1, location := some "B",
    distance_from_start := 100 }

theorem c1_daily_limits_witness :
    0 ≤ sampleInputs.current_cycle_used ∧ sampleInputs.current_cycle_used ≤ 70 ∧
    sampleClock0 ∈ sample0Final.trace_rev ∧
    (sampleClock0.drive_hours_today ≤ 11 ∧ sampleClock0.on_duty_window_hours ≤ 14) :=
  ⟨by norm_num [sampleInputs], by norm_num [sampleInputs], by decide,
    c1_daily_limits sampleInputs sampleSegs sample0Final (by norm_num [sampleInputs])
      (by norm_num [sampleInputs]) seq0_eq run0_eq sampleClock0 (by decide)⟩

theorem c2_break_rule_witness :
    samplePickupStop ∈ mergeStops sample0Final.stops_rev.reverse ∧
    (sampleClock0.hours_since_break ≤ 8 ∧
      (samplePickupStop.type = StopKind.ThirtyMinuteBreak →
        1/2 ≤ samplePickupStop.duration) ∧
      ((takeBreak defaultConfig (initState 0)).clock.hours_since_break = 0 ∧
        (takeBreak defaultConfig (initState 0)).clock.current_status =
          DutyStatus.OnDutyNotDriving ∧
        (takeBreak defaultConfig (initState 0)).clock.current_time =
          (initState 0).clock.current_time + 1/2) ∧
      ((emitTriggered defaultConfig (initState 0)).stops_rev.head? =
          some { type := StopKind.ThirtyMinuteBreak, duration := 1/2, location := none,
                 distance_from_start := (initState 0).distance } →
        8 ≤ (initState 0).clock.hours_since_break)) :=
  ⟨by decide,
    c2_break_rule sampleInputs sampleSegs sample0Final (by norm_num [sampleInputs])
      (by norm_num [sampleInputs]) seq0_eq run0_eq sampleClock0 (by decide)
      samplePickupStop (by decide) (initState 0)⟩

theorem c3_cycle_limit_witness :
    sampleClock68 ∈ sample68Final.trace_rev ∧
    70 - sampleInputs68.current_cycle_used < sample68Final.on_duty_accum ∧
    (sampleClock68.cycle_hours_used ≤ 70 ∧
      StopKind.CycleReset34h ∈ sample68Final.stops_rev.map (fun x => x.type)) :=
  ⟨by decide, by norm_num [sampleInputs68, sample68Final],
    (c3_cycle_limit sampleInputs68 sampleSegs68 sample68Final
        (by norm_num [sampleInputs68]) (by norm_num [sampleInputs68]) seq68_eq run68_eq
        sampleClock68 (by decide)).1,
    (c3_cycle_limit sampleInputs68 sampleSegs68 sample68Final
        (by norm_num [sampleInputs68]) (by norm_num [sampleInputs68]) seq68_eq run68_eq
        sampleClock68 (by decide)).2
      (by norm_num [sampleInputs68, sample68Final])⟩

theorem c4_stop_ordering_witness :
    planTrip defaultConfig sampleInputs = Except.ok sampleResult ∧
    (List.Chain' (fun a b => a.distance_from_start < b.distance_from_start)
        sampleResult.stops ∧
      List.Pairwise (fun a b => ¬(a.type = b.type ∧
        a.distance_from_start = b.distance_from_start)) sampleResult.stops ∧
      stopRank StopKind.DailyRest10h < stopRank StopKind.CycleReset34h ∧
      stopRank StopKind.CycleReset34h < stopRank StopKind.ThirtyMinuteBreak ∧
      stopRank StopKind.ThirtyMinuteBreak < stopRank StopKind.Fuel) :=
  ⟨plan0_eq, c4_stop_ordering sampleInputs sampleResult plan0_eq⟩

theorem c5_distance_roundtrip_witness :
    planTrip defaultConfig sampleInputs = Except.ok sampleResult ∧
    (sampleResult.total_distance =
        sampleInputs.leg1.distance_miles + sampleInputs.leg2.distance_miles ∧
      reconstructedTotal sampleResult.stops = sampleResult.total_distance) :=
  ⟨plan0_eq, c5_distance_roundtrip sampleInputs sampleResult plan0_eq⟩

/-- A request with `current_cycle_used = 71`, outside the legal range. -/
def overLimitInputs : PlanInputs :=
  { current_location := "A", pickup_location := "B", dropoff_location := "C"
    current_coord := (0, 0), pickup_coord := (1, 1), dropoff_coord := (2, 2)
    leg1 := { distance_miles := 100, duration_hours := 2 }
    leg2 := { distance_miles := 100, duration_hours := 2 }
    current_cycle_used := 71 }

theorem c7_cycle_validation_witness :
    (overLimitInputs.current_cycle_used < 0 ∨ 70 < overLimitInputs.current_cycle_used) ∧
    (planTrip defaultConfig overLimitInputs = Except.error PlanError.validationError ∧
      currentCycleUsedField.min = 0 ∧ currentCycleUsedField.max = 70) :=
  ⟨by norm_num [overLimitInputs],
    c7_cycle_validation overLimitInputs (by norm_num [overLimitInputs])⟩

theorem c8_deterministic_witness :
    sampleInputs = sampleInputs ∧
    planTrip defaultConfig sampleInputs = planTrip defaultConfig sampleInputs :=
  ⟨rfl, c8_deterministic sampleInputs sampleInputs rfl⟩

def sixCoords : List Coord := [(0, 0), (0, 0), (0, 0), (0, 0), (0, 0), (0, 0)]

theorem c10_marker_labels_witness :
    (2 ≤ 5 ∧ 5 < sixCoords.length) ∧
    (markerLabel 0 = "Current Location" ∧ markerLabel 1 = "Pickup" ∧
      markerLabel 5 = "Dropoff" ∧ (markerLabels sixCoords).get? 5 = some "Dropoff") :=
  ⟨⟨by norm_num, by norm_num [sixCoords]⟩,
    c10_marker_labels 5 sixCoords (by norm_num) (by norm_num [sixCoords])⟩
